import Mathlib

/-!
Verification development for the fishing-game session engine in
`src/server/handlers/commands.ts`. The engine's data model and operations
are shallowly embedded: JS numbers become `ℤ` or `ℚ`, `Math.round` becomes
`jround`, in-place mutation becomes state-passing, and random draws become
explicit parameters. Timer bookkeeping (setTimeout handles) carries no
player-visible state and is modelled only through the state fields it
guards. Status/log text lines are modelled only where a claim mentions
them.
-/

namespace FishLooter

/-- JS `Math.round`: half-up rounding toward +∞, `Math.round x = ⌊x + 0.5⌋`. -/
def jround (q : ℚ) : ℤ := Int.floor (q + 1/2)

/-- The six crafting material ids (`materialDefaults` keys). -/
inductive MaterialId
  | tideShard | emberFragment | abyssalInk | frostCrystal | astralFiber | cosmicDust
deriving DecidableEq, Repr

/-- The three essence ids (`essenceDefaults` keys). -/
inductive EssenceId
  | sparkEssence | echoEssence | mythicEssence
deriving DecidableEq, Repr

/-- `rarityOrder` index: 0=common, 1=uncommon, 2=rare, 3=epic, 4=legendary,
5=mythic, 6=relic. We keep rarities as indices into that array. -/
abbrev RarityIdx := ℕ

/-- An inventory item (`InventoryItem`), with rarity as a `rarityOrder` index
and the optional `type` tag as a string option. The random uuid is dropped. -/
structure InventoryItem where
  name : String
  rarityIdx : RarityIdx
  value : ℤ
  itemType : Option String := none
deriving DecidableEq, Repr

/-- One rarity tier configuration (`RarityConfig`). -/
structure RarityConfig where
  rarityIdx : RarityIdx
  weight : ℚ
  valueLo : ℤ
  valueHi : ℤ
  xp : ℚ
deriving DecidableEq, Repr

/-- A biome (`Biome`); loot-name tables are dropped (they only choose the
random item name, which we pass in explicitly). -/
structure Biome where
  key : String
  tier : ℕ
  goldMultiplier : ℚ
  xpMultiplier : ℚ
  rarityConfigs : List RarityConfig
deriving DecidableEq, Repr

/-- `state.activeBait`. -/
structure Bait where
  rarityBonus : ℚ
  valueBonus : ℚ
  uses : ℤ
  expiresAt : Option ℤ := none
  minRarityIndex : Option RarityIdx := none
  xpBonus : Option ℚ := none
deriving DecidableEq, Repr

/-- `state.activeCharm`. -/
structure Charm where
  expiresAt : ℤ
  rarityBonus : ℚ
  xpBonus : ℚ
deriving DecidableEq, Repr

/-- One aggregated entry of `state.activeBuffs` (amount + expiresAt). -/
structure BuffTotal where
  amount : ℚ
  expiresAt : ℤ
deriving DecidableEq, Repr

/-- An applied enchantment (`EnchantmentInstance`), bonuses only. -/
structure EnchantmentInstance where
  rarityBonus : ℚ
  valueBonus : ℚ
deriving DecidableEq, Repr

/-- One entry of `state.upgradeCharges` (rate-limit window bookkeeping). -/
structure UpgradeCharge where
  count : ℤ
  resetAt : ℤ
deriving DecidableEq, Repr

/-- The per-player state (`PlayerState`), restricted to the fields the
engine's handlers read or write. Counts that the code stores as JS numbers
are `ℤ` so that non-negativity is a theorem, not a typing artifact. -/
structure PlayerState where
  gold : ℤ
  level : ℤ
  xp : ℤ
  xpNeeded : ℤ
  poleLevel : ℤ
  lureLevel : ℤ
  luck : ℤ
  inventory : List InventoryItem
  inventoryCap : ℕ
  isCasting : Bool
  hasTug : Bool
  biomeKey : String
  xpBuff : Option BuffTotal
  valueBuff : Option BuffTotal
  activeBait : Option Bait
  activeCharm : Option Charm
  materials : MaterialId → ℤ
  essences : EssenceId → ℤ
  enchantments : List EnchantmentInstance
  upgradeCharges : String → Option UpgradeCharge
  craftingUnlocked : Bool
  tradingUnlocked : Bool
  enchantmentsUnlocked : Bool
  prestigeCount : ℕ
  poleSkinId : String
  ownedPoleSkins : List String
  stabilizerCharges : ℤ
  echoReelCharges : ℤ
  chestUpgrade : Bool
  chestMinRarityIndex : Option RarityIdx
  craftingBoostCharges : ℤ
  enchantBoostCharges : ℤ

/-- `inventoryCapBase` / `inventoryCapMax` / `inventoryCapStep`. -/
def inventoryCapBase : ℕ := 15
def inventoryCapMax : ℕ := 30
def inventoryCapStep : ℕ := 5

/-- `baseGoldPerCatch`. -/
def baseGoldPerCatch : ℤ := 6

/-- `baseState(...)`: the default new-player record (identity fields and the
scoped key are dropped). -/
def baseState : PlayerState where
  gold := 25
  level := 1
  xp := 0
  xpNeeded := 100
  poleLevel := 1
  lureLevel := 0
  luck := 0
  inventory := []
  inventoryCap := inventoryCapBase
  isCasting := false
  hasTug := false
  biomeKey := "cove"
  xpBuff := none
  valueBuff := none
  activeBait := none
  activeCharm := none
  materials := fun _ => 0
  essences := fun _ => 0
  enchantments := []
  upgradeCharges := fun _ => none
  craftingUnlocked := false
  tradingUnlocked := false
  enchantmentsUnlocked := false
  prestigeCount := 0
  poleSkinId := "classic"
  ownedPoleSkins := ["classic"]
  stabilizerCharges := 0
  echoReelCharges := 0
  chestUpgrade := false
  chestMinRarityIndex := none
  craftingBoostCharges := 0
  enchantBoostCharges := 0

/-- The level-up loop of `applyCatchRewards` / `grantXp`:
`while (xp >= xpNeeded) { xp -= xpNeeded; level += 1; xpNeeded = round(100 + level*30); }`.
Fuel-indexed so the definition is total; callers supply fuel that the JS
loop's termination argument makes sufficient. Returns
(xp, level, xpNeeded, levelUps). -/
def levelLoop : ℕ → ℤ → ℤ → ℤ → ℤ × ℤ × ℤ × List ℤ
  | 0, xp, level, need => (xp, level, need, [])
  | fuel + 1, xp, level, need =>
    if need ≤ xp then
      let level' := level + 1
      let need' := 100 + level' * 30
      let r := levelLoop fuel (xp - need) level' need'
      (r.1, r.2.1, r.2.2.1, level' :: r.2.2.2)
    else (xp, level, need, [])

/-- Result bundle of `applyCatchRewards`. -/
structure CatchResult where
  goldEarned : ℤ
  xpGained : ℤ
  levelUps : List ℤ
  stored : Bool
deriving DecidableEq, Repr

/-- `applyCatchRewards(state, item, rarity, biome, eventEffects)`:
reward formulas, gold/xp application, capacity-guarded storage (auto-sell
when full keeps only the gold already granted), and the level-up loop. -/
def applyCatchRewards (state : PlayerState) (item : InventoryItem)
    (rarity : RarityConfig) (biome : Biome) (eventXpBonus eventGoldBonus : ℚ) :
    PlayerState × CatchResult :=
  let valueBuff : ℚ := (state.valueBuff.map (·.amount)).getD 0
  let valueMultiplier : ℚ :=
    1 + ((state.poleLevel : ℚ) - 1) * (1/10)
      + ((state.activeBait.map (·.valueBonus)).getD 0) + valueBuff
  let xpBuffAmt : ℚ := (state.xpBuff.map (·.amount)).getD 0
  let xpBoost : ℚ :=
    1 + (state.poleLevel : ℚ) * (5/100) + (state.lureLevel : ℚ) * (5/100)
      + (state.luck : ℚ) * (1/10)
      + ((state.activeCharm.map (·.xpBonus)).getD 0)
      + ((state.activeBait.bind (·.xpBonus)).getD 0)
      + xpBuffAmt
  let goldMultiplier : ℚ := 1 + eventGoldBonus
  let xpMultiplier : ℚ := 1 + eventXpBonus
  let goldEarned : ℤ :=
    jround (((baseGoldPerCatch : ℚ) + (item.value : ℚ) * valueMultiplier)
      * biome.goldMultiplier * goldMultiplier)
  let xpGained : ℤ := jround (rarity.xp * xpBoost * biome.xpMultiplier * xpMultiplier)
  let xpAfter := state.xp + xpGained
  let stored := state.inventory.length < state.inventoryCap
  let inv' := if stored then state.inventory ++ [item] else state.inventory
  let r := levelLoop (xpAfter.toNat + 1) xpAfter state.level state.xpNeeded
  ({ state with
      gold := state.gold + goldEarned
      xp := r.1
      level := r.2.1
      xpNeeded := r.2.2.1
      inventory := inv' },
   { goldEarned := goldEarned, xpGained := xpGained, levelUps := r.2.2.2, stored := stored })

/-- `grantXp(state, amount)` (used by the treasure-map path). -/
def grantXp (state : PlayerState) (amount : ℤ) : PlayerState × List ℤ :=
  let xpAfter := state.xp + amount
  let r := levelLoop (xpAfter.toNat + 1) xpAfter state.level state.xpNeeded
  ({ state with xp := r.1, level := r.2.1, xpNeeded := r.2.2.1 }, r.2.2.2)

/-! ## Global events (`GlobalEvent`, `getEventEffects`, `handleEventCommand`) -/

inductive EventKind
  | xp | gold | double | luck
deriving DecidableEq, Repr

/-- A mod-issued global event (`GlobalEvent`); the uuid is dropped. -/
structure GlobalEvent where
  kind : EventKind
  endsAt : ℤ
  amount : ℚ
  targetRarity : Option RarityIdx := none
deriving DecidableEq, Repr

/-- `currentEvents()`: events that have not yet expired at `now`
(`clearGlobalEvent` removes those with `now ≥ endsAt`). -/
def currentEvents (now : ℤ) (events : List GlobalEvent) : List GlobalEvent :=
  events.filter (fun e => now < e.endsAt)

/-- The aggregate of `getEventEffects()` over the active events. -/
structure EventEffects where
  xpBonus : ℚ
  goldBonus : ℚ
  luckGlobalBonus : ℚ
  luckTargetedBonus : ℚ
  luckTargetIdx : Option RarityIdx
  doubleStacks : ℤ
deriving DecidableEq, Repr

/-- One fold step of the `getEventEffects` loop body. -/
def eventEffectsStep (acc : EventEffects) (evt : GlobalEvent) : EventEffects :=
  let acc := if evt.kind = .xp then { acc with xpBonus := acc.xpBonus + max 0 evt.amount } else acc
  let acc := if evt.kind = .gold then { acc with goldBonus := acc.goldBonus + max 0 evt.amount } else acc
  let acc :=
    if evt.kind = .luck then
      match evt.targetRarity with
      | some idx =>
          { acc with
              luckTargetedBonus := acc.luckTargetedBonus + max 0 evt.amount
              luckTargetIdx := some (match acc.luckTargetIdx with
                | none => idx
                | some j => min j idx) }
      | none => { acc with luckGlobalBonus := acc.luckGlobalBonus + max 0 evt.amount }
    else acc
  if evt.kind = .double then
    { acc with doubleStacks := acc.doubleStacks + max 0 (jround (if evt.amount = 0 then 1 else evt.amount)) }
  else acc

/-- `getEventEffects(io)`: drop expired events, then accumulate bonuses.
`doubleStacks` adds `max(0, round(evt.amount || 1))` per double event. -/
def getEventEffects (now : ℤ) (events : List GlobalEvent) : EventEffects :=
  (currentEvents now events).foldl eventEffectsStep
    { xpBonus := 0, goldBonus := 0, luckGlobalBonus := 0, luckTargetedBonus := 0,
      luckTargetIdx := none, doubleStacks := 0 }

/-- `maxDoubleStacks`. -/
def maxDoubleStacks : ℤ := 3

/-- `handleReel`'s bonus-catch count:
`Math.min(maxDoubleStacks, Math.max(0, Math.round(eventEffects.doubleStacks)))`.
`doubleStacks` is integer-valued (a sum of rounds), so the outer
`Math.round` is the identity and is folded away. -/
def bonusCatchCount (now : ℤ) (events : List GlobalEvent) : ℤ :=
  min maxDoubleStacks (max 0 (getEventEffects now events).doubleStacks)

/-- `handleEventCommand`'s stored amount for a `double` event:
`Math.max(1, Math.min(maxDoubleStacks, Math.round(amountArg ?? 1)))`. -/
def doubleEventAmount (requested : ℚ) : ℚ :=
  ((max 1 (min maxDoubleStacks (jround requested)) : ℤ) : ℚ)

/-! ## The reel resolution (`handleReel`) -/

/-- Overlay events, restricted to what claims mention: the `catch` event with
its success flag (status/log lines and the full payloads are not modelled). -/
inductive OverlayEv
  | catchEvt (success : Bool)
deriving DecidableEq, Repr

/-- Decrement `state.activeBait.uses` and drop the bait at 0
(`state.activeBait.uses -= 1; if (uses <= 0) activeBait = undefined`). -/
def decBait (bait : Option Bait) : Option Bait :=
  match bait with
  | none => none
  | some b => if b.uses - 1 ≤ 0 then none else some { b with uses := b.uses - 1 }

/-- The random draws consumed by one `handleReel` resolution, made explicit:
the rolled rarity config, the generated items, the cosmic-dust rolls, and
the prestige-4 scroll drop. -/
structure ReelRand where
  rarity : RarityConfig
  mainItem : InventoryItem
  bonusItem : ℕ → InventoryItem
  echoItem : InventoryItem
  dustHit : Bool
  dustExtra : Bool
  scrollDrop : Option InventoryItem

/-- `maybeAwardCosmicDust(state, biome)`: tier-5+ biomes award 1–2 cosmic
dust with probability 0.15 (the rolls are the explicit `hit`/`extra`). -/
def maybeAwardCosmicDust (state : PlayerState) (biome : Biome)
    (hit extra : Bool) : PlayerState × ℕ :=
  if biome.tier < 5 then (state, 0)
  else if hit then
    let amount : ℕ := 1 + (if extra then 1 else 0)
    ({ state with materials := fun m =>
        if m = .cosmicDust then state.materials m + amount else state.materials m },
     amount)
  else (state, 0)

/-- The bonus-catch loop in `handleReel` (one `applyCatchRewards` per stack). -/
def applyBonusCatches (biome : Biome) (rarity : RarityConfig) (eff : EventEffects)
    (items : ℕ → InventoryItem) : ℕ → PlayerState → PlayerState
  | 0, s => s
  | n + 1, s =>
      let s' := (applyCatchRewards s (items n) rarity biome eff.xpBonus eff.goldBonus).1
      applyBonusCatches biome rarity eff items n s'

/-- The prestige-4 scroll drop in `handleReel`: 5% chance; stored if there is
room, else 50 gold consolation. -/
def applyScrollDrop (state : PlayerState) (drop : Option InventoryItem) : PlayerState :=
  if state.prestigeCount ≥ 4 then
    match drop with
    | some bonus =>
        if state.inventory.length < state.inventoryCap then
          { state with inventory := state.inventory ++ [bonus] }
        else { state with gold := state.gold + 50 }
    | none => state
  else state

/-- The echo-reel charge resolution in `handleReel`: consume one charge and
resolve a bonus catch one rarity tier lower. -/
def applyEchoReel (state : PlayerState) (biome : Biome) (rarity : RarityConfig)
    (eff : EventEffects) (echoItem : InventoryItem) : PlayerState :=
  if state.echoReelCharges > 0 then
    let downgradedIdx : ℕ := rarity.rarityIdx - 1
    let downgradedRarity :=
      (biome.rarityConfigs.find? (fun r => r.rarityIdx = downgradedIdx)).getD rarity
    let s := { state with echoReelCharges := state.echoReelCharges - 1 }
    (applyCatchRewards s echoItem downgradedRarity biome eff.xpBonus eff.goldBonus).1
  else state

/-- The successful-reel resolution: main catch, cosmic dust, double-event
bonus catches, scroll drop, echo reel, bait decrement (in source order). -/
def resolveReel (now : ℤ) (events : List GlobalEvent) (biome : Biome)
    (rng : ReelRand) (state : PlayerState) : PlayerState × List OverlayEv :=
  let eff := getEventEffects now events
  let rarity := rng.rarity
  let (s1, _res) := applyCatchRewards state rng.mainItem rarity biome eff.xpBonus eff.goldBonus
  let (s2, _dust) := maybeAwardCosmicDust s1 biome rng.dustHit rng.dustExtra
  let s3 := applyBonusCatches biome rarity eff rng.bonusItem (bonusCatchCount now events).toNat s2
  let s4 := applyScrollDrop s3 rng.scrollDrop
  let s5 := applyEchoReel s4 biome rarity eff rng.echoItem
  let s6 := { s5 with activeBait := decBait s5.activeBait }
  (s6, [.catchEvt true])

/-- `handleReel(io, state)`: the cast/tug/stabilizer gate followed by the
resolution. Not casting → unchanged (a status is emitted, not modelled).
Casting without a tug consumes a stabilizer charge if available (treating the
reel as if the tug had fired), else resolves a failed catch. -/
def handleReel (now : ℤ) (events : List GlobalEvent) (biome : Biome)
    (rng : ReelRand) (state : PlayerState) : PlayerState × List OverlayEv :=
  if !state.isCasting then (state, [])
  else
    let gated : Option PlayerState :=
      if !state.hasTug then
        if state.stabilizerCharges > 0 then
          some { state with stabilizerCharges := state.stabilizerCharges - 1, hasTug := true }
        else none
      else some state
    match gated with
    | none =>
        ({ state with isCasting := false, activeBait := decBait state.activeBait },
         [.catchEvt false])
    | some s0 =>
        resolveReel now events biome rng { s0 with hasTug := false, isCasting := false }

/-- `handleCast`'s player-state effect: reject when already casting; else
drop expired bait, set `isCasting`, clear `hasTug` (timers not modelled). -/
def handleCast (now : ℤ) (state : PlayerState) : PlayerState :=
  if state.isCasting then state
  else
    let bait :=
      match state.activeBait with
      | some b =>
          let expired : Bool := match b.expiresAt with | some t => t < now | none => false
          if expired then none else some b
      | none => none
    { state with isCasting := true, hasTug := false, activeBait := bait }

/-- The decay timer body in `handleCast`: if still casting, force a failed
catch and decrement bait uses. -/
def decayFire (state : PlayerState) : PlayerState :=
  if state.isCasting then
    { state with isCasting := false, hasTug := false, activeBait := decBait state.activeBait }
  else state

/-- The tug timer body in `handleCast`: mark `hasTug`. -/
def tugFire (state : PlayerState) : PlayerState :=
  { state with hasTug := true }

/-! ## Biomes (`baseBiomes`) -/

/-- `coveRarityConfigs`. -/
def coveRarityConfigs : List RarityConfig :=
  [ ⟨0, 52, 5, 12, 6⟩, ⟨1, 26, 12, 22, 13⟩, ⟨2, 12, 24, 40, 24⟩, ⟨3, 6, 42, 70, 40⟩,
    ⟨4, 3, 72, 110, 60⟩, ⟨5, 1, 120, 220, 95⟩, ⟨6, 1/5, 240, 420, 150⟩ ]

/-- The tier-1 starting biome (`baseBiomes.cove`: Midnight Cove, gold and
xp multipliers 1.0). -/
def coveBiome : Biome := ⟨"cove", 1, 1, 1, coveRarityConfigs⟩

/-- The five built-in biomes (`baseBiomes`), loot-name tables elided. -/
def baseBiomes : List Biome :=
  [ coveBiome,
    ⟨"ember-reef", 2, 6/5, 23/20,
      [ ⟨0, 42, 12, 26, 10⟩, ⟨1, 24, 22, 40, 18⟩, ⟨2, 15, 42, 80, 32⟩, ⟨3, 9, 70, 120, 55⟩,
        ⟨4, 6, 110, 180, 85⟩, ⟨5, 4, 160, 280, 130⟩, ⟨6, 7/20, 320, 520, 200⟩ ]⟩,
    ⟨"abyssal-gulf", 3, 27/20, 13/10,
      [ ⟨0, 36, 14, 30, 12⟩, ⟨1, 24, 28, 48, 20⟩, ⟨2, 16, 55, 95, 38⟩, ⟨3, 12, 90, 150, 70⟩,
        ⟨4, 8, 150, 240, 110⟩, ⟨5, 4, 220, 360, 165⟩, ⟨6, 2/5, 360, 600, 240⟩ ]⟩,
    ⟨"crystal-fjord", 4, 31/20, 3/2,
      [ ⟨0, 34, 18, 38, 18⟩, ⟨1, 22, 35, 60, 30⟩, ⟨2, 16, 70, 125, 55⟩, ⟨3, 12, 120, 200, 90⟩,
        ⟨4, 10, 190, 300, 135⟩, ⟨5, 6, 280, 450, 200⟩, ⟨6, 9/20, 420, 720, 300⟩ ]⟩,
    ⟨"astral-lagoon", 5, 21/10, 19/10,
      [ ⟨0, 30, 24, 48, 24⟩, ⟨1, 22, 45, 80, 40⟩, ⟨2, 16, 90, 150, 70⟩, ⟨3, 14, 160, 260, 120⟩,
        ⟨4, 10, 250, 380, 180⟩, ⟨5, 8, 360, 520, 260⟩, ⟨6, 1/2, 520, 860, 360⟩ ]⟩ ]

/-- `nextBiome`: the biome at `tier + 1`, if any. -/
def nextBiome (current : Biome) : Option Biome :=
  baseBiomes.find? (fun b => b.tier = current.tier + 1)

/-- `prevBiome`: the biome at `tier - 1`, if any. -/
def prevBiome (current : Biome) : Option Biome :=
  baseBiomes.find? (fun b => b.tier + 1 = current.tier)

/-! ## Store items, upgrades and prestige (`storeItems`, `getUpgrades`, `handleBuy`) -/

/-- A store item (`StoreItem`), restricted to the fields `handleBuy` reads. -/
structure StoreItem where
  key : String
  name : String
  cost : ℤ
  rarityIdx : RarityIdx
  value : ℤ
  itemType : Option String := none
  minLevel : Option ℤ := none
  premium : Bool := false
deriving DecidableEq, Repr

/-- An upgrade definition (`UpgradeDefinition`). -/
structure UpgradeDefinition where
  key : String
  name : String
  cost : ℤ
  maxLevel : ℤ
  stat : String
deriving DecidableEq, Repr

/-- `baseUpgrades`. -/
def baseUpgrades : List UpgradeDefinition :=
  [ ⟨"rod", "Reinforced Rod", 60, 1, "value"⟩,
    ⟨"lure", "Lucky Lure", 80, 5, "rarity"⟩,
    ⟨"journal", "Fishing Journal", 50, 1, "xp"⟩ ]

/-- The prestige-token cost ladder in `getUpgrades`. -/
def prestigeTierCost (tier : ℕ) : ℤ :=
  if tier = 1 then 75000 else if tier = 2 then 100000 else if tier = 3 then 150000 else 220000

/-- `getUpgrades(state)`: the base upgrade list, plus a dynamic prestige
token at level ≥ 60 while `prestigeCount < 4` (the key-dedup pass is the
identity here because all keys are distinct). -/
def getUpgrades (level : ℤ) (prestigeCount : ℕ) : List UpgradeDefinition :=
  baseUpgrades ++
    (if 60 ≤ level ∧ prestigeCount < 4 then
      let tier := prestigeCount + 1
      [ ⟨"prestige", "Prestige Token " ++ toString tier ++ "/4", prestigeTierCost tier, 1,
          "prestige"⟩ ]
    else [])

/-- `item.minLevel && state.level < item.minLevel`. -/
def belowMinLevel (level : ℤ) (minLevel : Option ℤ) : Bool :=
  match minLevel with
  | some ml => level < ml
  | none => false

/-- `isStoreItemUnlocked(state, item)`: scrolls need prestige ≥ 4; skins
need the level floor. -/
def isStoreItemUnlocked (state : PlayerState) (item : StoreItem) : Bool :=
  if item.itemType = some "scroll" ∧ state.prestigeCount < 4 then false
  else if item.itemType = some "skin" ∧ belowMinLevel state.level item.minLevel then false
  else true

/-- The prestige branch of `handleBuy`: reject at the cap (3), below level
60, or without the gold; otherwise pay, reset to level 1, bump
`prestigeCount` and set the staged unlock flags. The second component is the
emitted status for the rejection the claims mention. -/
def buyPrestige (state : PlayerState) : PlayerState × Option String :=
  if state.prestigeCount ≥ 3 then (state, some "Maximum prestige reached.")
  else if state.level < 60 then (state, some "Prestige requires level 60.")
  else
    let cost := prestigeTierCost (state.prestigeCount + 1)
    if state.gold < cost then (state, some "Not enough gold.")
    else
      let pc := state.prestigeCount + 1
      ({ state with
          gold := state.gold - cost
          level := 1
          xp := 0
          xpNeeded := 100
          prestigeCount := pc
          craftingUnlocked := if pc ≥ 1 then true else state.craftingUnlocked
          tradingUnlocked := if pc ≥ 2 then true else state.tradingUnlocked
          enchantmentsUnlocked := if pc ≥ 3 then true else state.enchantmentsUnlocked },
       none)

/-- The journal/rod branch of `handleBuy`: windowed purchase limit (3 per
12h), gold check, then a timed-buff grant (the grant itself is applied by
the timed-buff registry; see `addTimedBuffXp`/`addTimedBuffValue`). Returns
the paid state and whether the purchase went through. -/
def buyTimedUpgrade (state : PlayerState) (key : String) (cost : ℤ) (now : ℤ) :
    PlayerState × Bool :=
  let windowMs : ℤ := 12 * 60 * 60 * 1000
  let entry0 := (state.upgradeCharges key).getD ⟨0, now + windowMs⟩
  let entry1 := if entry0.resetAt < now then (⟨0, now + windowMs⟩ : UpgradeCharge) else entry0
  if entry1.count ≥ 3 then (state, false)
  else if state.gold < cost then (state, false)
  else
    let entry2 : UpgradeCharge := ⟨entry1.count + 1, max entry1.resetAt (now + windowMs)⟩
    ({ state with
        gold := state.gold - cost
        upgradeCharges := fun k => if k = key then some entry2 else state.upgradeCharges k },
     true)

/-- The default-upgrade branch of `handleBuy` (lure and any other
stat-levelled upgrade): max-level check, gold check, stat bump. -/
def buyStatUpgrade (state : PlayerState) (upgrade : UpgradeDefinition) : PlayerState :=
  let currentLevel :=
    if upgrade.stat = "rarity" then state.lureLevel
    else if upgrade.stat = "value" then state.poleLevel
    else state.luck
  if currentLevel ≥ upgrade.maxLevel then state
  else if state.gold < upgrade.cost then state
  else
    { state with
        gold := state.gold - upgrade.cost
        lureLevel := if upgrade.stat = "rarity" then state.lureLevel + 1 else state.lureLevel
        poleLevel := if upgrade.stat = "value" then state.poleLevel + 1 else state.poleLevel
        luck := if upgrade.stat = "xp" then state.luck + 1 else state.luck }

/-- The bag-upgrade branch of `handleBuy`: capacity steps of +5 up to 30,
quantity- and gold-checked before paying. `unitCost` is the dynamic price. -/
def buyBagUpgrade (state : PlayerState) (unitCost : ℤ) (quantity : ℕ) : PlayerState :=
  let remaining : ℤ := max 0 ((inventoryCapMax - state.inventoryCap : ℤ) / inventoryCapStep)
  if remaining ≤ 0 then state
  else if (quantity : ℤ) > remaining then state
  else
    let totalCost := unitCost * quantity
    if state.gold < totalCost then state
    else
      { state with
          gold := state.gold - totalCost
          inventoryCap := min inventoryCapMax (state.inventoryCap + inventoryCapStep * quantity) }

/-- The store-item branch of `handleBuy`: level floor, prestige-unlock
gates, inventory-space check, gold check, then pay and push `quantity`
copies. `unitCost` is the dynamic price. -/
def buyStoreItem (state : PlayerState) (item : StoreItem) (unitCost : ℤ) (quantity : ℕ) :
    PlayerState :=
  if belowMinLevel state.level item.minLevel then state
  else if item.key = "crafting-booster" ∧ !state.craftingUnlocked then state
  else if item.key = "enchanters-spark" ∧ !state.enchantmentsUnlocked then state
  else
    let space : ℤ := (state.inventoryCap : ℤ) - state.inventory.length
    if space < quantity then state
    else
      let totalCost := unitCost * quantity
      if state.gold < totalCost then state
      else
        { state with
            gold := state.gold - totalCost
            inventory := state.inventory ++
              List.replicate quantity ⟨item.name, item.rarityIdx, item.value, item.itemType⟩ }

/-- The skin branch of `handleBuy`: owned/level/gold checks, then pay and
equip. `skinCost` is the dynamic price. -/
def buySkin (state : PlayerState) (skinId : String) (levelReq : ℤ) (skinCost : ℤ) :
    PlayerState :=
  if state.ownedPoleSkins.contains skinId then state
  else if state.level < levelReq then state
  else if state.gold < skinCost then state
  else
    { state with
        gold := state.gold - skinCost
        poleSkinId := skinId
        ownedPoleSkins := (state.ownedPoleSkins ++ [skinId]).dedup }

/-! ## Selling (`handleSell`) -/

/-- `handleSell(state, ["all"])`: credit the summed values, empty the bag. -/
def handleSellAll (state : PlayerState) : PlayerState :=
  { state with
      gold := state.gold + (state.inventory.map (·.value)).sum
      inventory := [] }

/-- `handleSell(state, args)` for a single item: sell the named item, else
the oldest (head) one. -/
def handleSellOne (state : PlayerState) (query : Option String) : PlayerState :=
  if state.inventory.isEmpty then state
  else
    let idx : Option ℕ := query.bind (fun q =>
      state.inventory.findIdx? (fun i => i.name.toLower = q))
    match idx with
    | some i =>
        let sold := state.inventory.get? i
        { state with
            gold := state.gold + (sold.map (·.value)).getD 0
            inventory := state.inventory.eraseIdx i }
    | none =>
        match state.inventory with
        | [] => state
        | sold :: rest => { state with gold := state.gold + sold.value, inventory := rest }

/-! ## Crafting (`craftingRecipes`, `panelCraft`) -/

/-- The `materialDefaults` key strings. -/
def materialIdStr : MaterialId → String
  | .tideShard => "tide-shard"
  | .emberFragment => "ember-fragment"
  | .abyssalInk => "abyssal-ink"
  | .frostCrystal => "frost-crystal"
  | .astralFiber => "astral-fiber"
  | .cosmicDust => "cosmic-dust"

/-- A crafting recipe (`CraftingRecipe`): ordered cost list (JS object
entries iterate in insertion order), an optional granted item (deterministic
up to the dropped uuid) and optional granted materials. -/
structure CraftingRecipe where
  id : String
  costs : List (MaterialId × ℤ)
  grantsItem : Option InventoryItem := none
  grantsMaterials : List (MaterialId × ℤ) := []
deriving DecidableEq, Repr

/-- The built-in `craftingRecipes` (apostrophes in display names elided).
Rarity indices: epic=3, legendary=4, rare=2. -/
def craftingRecipes : List CraftingRecipe :=
  [ ⟨"crafting-booster-kit", [(.tideShard, 2), (.emberFragment, 1)],
      some ⟨"Crafting Booster Kit", 3, 0, some "token"⟩, []⟩,
    ⟨"enchanters-spark", [(.emberFragment, 2), (.abyssalInk, 1), (.frostCrystal, 1)],
      some ⟨"Enchanters Spark", 4, 0, some "token"⟩, []⟩,
    ⟨"tide-luck-charm", [(.tideShard, 3), (.astralFiber, 1)],
      some ⟨"Luck Charm", 2, 0, some "token"⟩, []⟩,
    ⟨"synthesize-cosmic-dust", [(.astralFiber, 6), (.frostCrystal, 5), (.abyssalInk, 4)],
      none, [(.cosmicDust, 1)]⟩ ]

/-- The validation loop of `panelCraft`: the first cost entry the player
cannot cover, if any. -/
def firstShortMaterial (materials : MaterialId → ℤ) :
    List (MaterialId × ℤ) → Option MaterialId
  | [] => none
  | (m, c) :: rest =>
      if materials m < c then some m else firstShortMaterial materials rest

/-- Deduct all recipe costs
(`materials[key] = Math.max(0, (materials[key] ?? 0) - cost)`). -/
def deductCosts (materials : MaterialId → ℤ) (costs : List (MaterialId × ℤ)) :
    MaterialId → ℤ :=
  costs.foldl (fun f mc => fun m => if m = mc.1 then max 0 (f m - mc.2) else f m) materials

/-- Credit granted materials. -/
def grantMaterials (materials : MaterialId → ℤ) (grants : List (MaterialId × ℤ)) :
    MaterialId → ℤ :=
  grants.foldl (fun f mc => fun m => if m = mc.1 then f m + mc.2 else f m) materials

/-- `panelCraft(io, username, channel, recipeId)` for a resolved recipe:
crafting must be unlocked; every material cost is validated before any is
deducted; on a shortage the craft is rejected with a status naming that
material and nothing changes; otherwise costs are deducted, granted
materials are credited, and a granted item is stored (auto-sold for its
value when the bag is full). The second component is the rejection status,
if any. -/
def panelCraft (state : PlayerState) (recipe : CraftingRecipe) :
    PlayerState × Option String :=
  if !state.craftingUnlocked then
    (state, some "crafting is locked (prestige 1 required).")
  else
    match firstShortMaterial state.materials recipe.costs with
    | some m => (state, some ("not enough " ++ materialIdStr m))
    | none =>
        let s1 := { state with materials := deductCosts state.materials recipe.costs }
        let s2 := { s1 with materials := grantMaterials s1.materials recipe.grantsMaterials }
        let s3 :=
          match recipe.grantsItem with
          | some item =>
              if s2.inventory.length ≥ s2.inventoryCap then
                { s2 with gold := s2.gold + item.value }
              else { s2 with inventory := s2.inventory ++ [item] }
          | none => s2
        (s3, none)

/-! ## Enchanting (`panelEnchant`) -/

/-- `panelEnchant(io, username, channel, target, essence)`: requires the
prestige-3 unlock and at least one of the essence; consumes one and appends
an enchantment instance. -/
def panelEnchant (state : PlayerState) (essence : EssenceId) : PlayerState :=
  if !state.enchantmentsUnlocked then state
  else if state.essences essence ≤ 0 then state
  else
    let bonus : ℚ :=
      if essence = .mythicEssence then 12/100
      else if essence = .echoEssence then 8/100
      else 5/100
    { state with
        essences := fun e => if e = essence then state.essences e - 1 else state.essences e
        enchantments := state.enchantments ++ [⟨bonus, bonus/2⟩] }

/-! ## Duplication (`handleDuplicate`) -/

/-- `handleDuplicate` in `material` mode: needs ≥ 1 cosmic dust overall,
≥ 1 of the target; spends 1 dust, then adds one target (the two writes are
sequential, as in the source, so duplicating cosmic dust itself nets +1). -/
def duplicateMaterial (state : PlayerState) (target : MaterialId) : PlayerState :=
  let dustAvailable := state.materials .cosmicDust
  if dustAvailable ≤ 0 then state
  else
    let owned := state.materials target
    if owned ≤ 0 then state
    else if dustAvailable < 1 then state
    else
      let m1 : MaterialId → ℤ := fun m =>
        if m = .cosmicDust then dustAvailable - 1 else state.materials m
      let m2 : MaterialId → ℤ := fun m => if m = target then owned + 1 else m1 m
      { state with materials := m2 }

/-- `handleDuplicate` in `item` mode: needs dust, bag space and the named
item; spends 2 dust and pushes a clone. -/
def duplicateItem (state : PlayerState) (query : String) : PlayerState :=
  let dustAvailable := state.materials .cosmicDust
  if dustAvailable ≤ 0 then state
  else if state.inventory.length ≥ state.inventoryCap then state
  else
    match state.inventory.find? (fun i => i.name.toLower = query) with
    | none => state
    | some found =>
        if dustAvailable < 2 then state
        else
          { state with
              materials := fun m =>
                if m = .cosmicDust then dustAvailable - 2 else state.materials m
              inventory := state.inventory ++ [found] }

/-! ## Using items (`handleUse`) -/

/-- The `chestRarityByName` table (rarity indices). -/
def chestRarityByName (name : String) : Option RarityIdx :=
  if name = "common chest" then some 0
  else if name = "uncommon chest" then some 1
  else if name = "mythic chest" then some 5
  else if name = "legendary chest" then some 4
  else if name = "wooden chest" then some 1
  else if name = "seared chest" then some 1
  else if name = "sealed crate" then some 1
  else if name = "ember chest" then some 3
  else if name = "trench chest" then some 3
  else if name = "frosted chest" then some 1
  else if name = "glacial cache" then some 2
  else if name = "astral chest" then some 3
  else if name = "starfall crate" then some 2
  else none

/-- The bait branch of `handleUse`: consume the item, prime a single-use
bait (+0.3 rarity, +0.15 value) expiring in 30 minutes. -/
def useBaitItem (state : PlayerState) (idx : ℕ) (now : ℤ) : PlayerState :=
  match state.inventory.get? idx with
  | some item =>
      if item.itemType = some "bait" then
        { state with
            inventory := state.inventory.eraseIdx idx
            activeBait := some ⟨3/10, 15/100, 1, some (now + 30 * 60 * 1000), none, none⟩ }
      else state
  | none => state

/-- The compass branch of `handleUse`: consume the item and sail up one
biome tier (resetting any cast); at the top biome only the item is spent. -/
def useCompassItem (state : PlayerState) (idx : ℕ) (currentBiome : Biome) : PlayerState :=
  match state.inventory.get? idx with
  | some item =>
      if item.itemType = some "compass" then
        let s := { state with inventory := state.inventory.eraseIdx idx }
        match nextBiome currentBiome with
        | none => s
        | some next =>
            { s with biomeKey := next.key, isCasting := false, hasTug := false }
      else state
  | none => state

/-- The treasure-map branch of `handleUse`: consume the map, grant a
rare-floor cache item (stored if there is room, else auto-sold), plus bonus
gold and xp. The rolled rarity and generated cache item are parameters. -/
def useMapItem (state : PlayerState) (idx : ℕ) (biome : Biome)
    (cacheItem : InventoryItem) : PlayerState :=
  match state.inventory.get? idx with
  | some item =>
      if item.itemType = some "map" then
        let s0 := { state with inventory := state.inventory.eraseIdx idx }
        let stashBonusGold := jround ((40 + (s0.level : ℚ) * 3) * biome.goldMultiplier)
        let stashBonusXp := jround (35 * biome.xpMultiplier)
        let s1 := { s0 with gold := s0.gold + stashBonusGold }
        let s2 := (grantXp s1 stashBonusXp).1
        if s2.inventory.length < s2.inventoryCap then
          { s2 with inventory := s2.inventory ++ [cacheItem] }
        else { s2 with gold := s2.gold + cacheItem.value }
      else state
  | none => state

/-- The chest target-rarity resolution in `handleUse`: the name table (with
the item's own rarity as fallback), then the lens floor
(`chestMinRarityIndex`), then the key upgrade (`chestUpgrade`, one tier
higher capped at the top index). The `reward` parameter fed to
`useChestItem` stands for the random `makeItem` at this target. -/
def chestTargetRarity (biome : Biome) (item : InventoryItem)
    (minRarityIdx : Option RarityIdx) (upgraded : Bool) : RarityConfig :=
  let rarityKey := (chestRarityByName item.name.toLower).getD item.rarityIdx
  let target0 :=
    ((biome.rarityConfigs.find? (fun r => r.rarityIdx = rarityKey)).getD
      ((biome.rarityConfigs.head?).getD ⟨0, 0, 0, 0, 0⟩))
  let target1 :=
    match minRarityIdx with
    | some minIdx =>
        match biome.rarityConfigs.find? (fun (r : RarityConfig) => r.rarityIdx = minIdx) with
        | some minCfg => if target0.rarityIdx < minIdx then minCfg else target0
        | none => target0
    | none => target0
  if upgraded then
    match biome.rarityConfigs.find?
        (fun (r : RarityConfig) => r.rarityIdx = min 6 (target1.rarityIdx + 1)) with
    | some up => up
    | none => target1
  else target1

/-- The chest branch of `handleUse`: consume the chest, consume the lens and
key flags (the source resets each flag inside its `if`-present branch;
resetting an absent flag is the identity, so the reset here is
unconditional), then store the reward — generated at
`chestTargetRarity` — or auto-sell it when the bag is full. -/
def useChestItem (state : PlayerState) (idx : ℕ) (_biome : Biome)
    (reward : InventoryItem) : PlayerState :=
  match state.inventory.get? idx with
  | some item =>
      if item.itemType = some "chest" then
        let s0 := { state with inventory := state.inventory.eraseIdx idx }
        let s1 := { s0 with chestMinRarityIndex := none, chestUpgrade := false }
        if s1.inventory.length ≥ s1.inventoryCap then
          { s1 with gold := s1.gold + reward.value }
        else { s1 with inventory := s1.inventory ++ [reward] }
      else state
  | none => state

/-- The scroll branch of `handleUse`: prestige ≥ 4 gate, then consume one
scroll of the target rarity (the custom-loot pool update is global content,
not player state). -/
def useScrollItem (state : PlayerState) (targetRarity : RarityIdx) : PlayerState :=
  if state.prestigeCount < 4 then state
  else
    match state.inventory.findIdx? (fun i =>
        i.itemType = some "scroll" ∧ i.rarityIdx = targetRarity) with
    | some idx => { state with inventory := state.inventory.eraseIdx idx }
    | none => state

/-! ## Timed-buff registry (`TimedBuff`, `recomputeBuff`, `addTimedBuff`) -/

/-- One grant in `xpBuffTimers`/`valueBuffTimers`; `id` stands for the
otherwise-opaque timer handle used to identify the grant. -/
structure TimedGrant where
  amount : ℚ
  endsAt : ℤ
  id : ℕ
deriving DecidableEq, Repr

/-- `recomputeBuff(state, kind, map)`: keep the unexpired grants, and set
the aggregated buff to (sum of amounts, latest endsAt) when the sum is
positive, else remove the kind. -/
def recomputeBuffList (now : ℤ) (entries : List TimedGrant) :
    List TimedGrant × Option BuffTotal :=
  let kept := entries.filter (fun g => now < g.endsAt)
  let total := (kept.map (·.amount)).sum
  if 0 < total then
    (kept, some ⟨total, ((kept.map (·.endsAt)).max?).getD 0⟩)
  else (kept, none)

/-- The engine state around one player: the player record plus that
player's entries in the two timed-buff registries. -/
structure EngineState where
  player : PlayerState
  xpGrants : List TimedGrant
  valueGrants : List TimedGrant

/-- `addTimedBuff(state, 'xp', ...)`: append the grant, then recompute. -/
def addTimedBuffXp (e : EngineState) (amount : ℚ) (durationMs now : ℤ) (id : ℕ) :
    EngineState :=
  let r := recomputeBuffList now (e.xpGrants ++ [({ amount := amount, endsAt := now + durationMs, id := id } : TimedGrant)])
  { e with xpGrants := r.1, player := { e.player with xpBuff := r.2 } }

/-- `addTimedBuff(state, 'value', ...)`. -/
def addTimedBuffValue (e : EngineState) (amount : ℚ) (durationMs now : ℤ) (id : ℕ) :
    EngineState :=
  let r := recomputeBuffList now (e.valueGrants ++ [({ amount := amount, endsAt := now + durationMs, id := id } : TimedGrant)])
  { e with valueGrants := r.1, player := { e.player with valueBuff := r.2 } }

/-- The expiry callback armed by `addTimedBuff` for an xp grant: drop just
that grant (by its timer handle), then recompute. -/
def expireXpGrant (e : EngineState) (id : ℕ) (now : ℤ) : EngineState :=
  let r := recomputeBuffList now (e.xpGrants.filter (fun g => g.id ≠ id))
  { e with xpGrants := r.1, player := { e.player with xpBuff := r.2 } }

/-- The expiry callback for a value grant. -/
def expireValueGrant (e : EngineState) (id : ℕ) (now : ℤ) : EngineState :=
  let r := recomputeBuffList now (e.valueGrants.filter (fun g => g.id ≠ id))
  { e with valueGrants := r.1, player := { e.player with valueBuff := r.2 } }

/-- `clearCharm`'s player effect (also the charm expiry callback). -/
def charmExpire (state : PlayerState) : PlayerState :=
  { state with activeCharm := none }

/-- The `buy journal` flow: `buyTimedUpgrade` then an xp timed buff
(+15% for 5 minutes). -/
def buyJournalOp (e : EngineState) (now : ℤ) (id : ℕ) : EngineState :=
  let r := buyTimedUpgrade e.player "journal" 50 now
  if r.2 then addTimedBuffXp { e with player := r.1 } (15/100) (5 * 60 * 1000) now id
  else { e with player := r.1 }

/-- The `buy rod` flow: `buyTimedUpgrade` then a value timed buff
(+20% for 3 minutes). -/
def buyRodOp (e : EngineState) (now : ℤ) (id : ℕ) : EngineState :=
  let r := buyTimedUpgrade e.player "rod" 60 now
  if r.2 then addTimedBuffValue { e with player := r.1 } (20/100) (3 * 60 * 1000) now id
  else { e with player := r.1 }

/-- Branch selector for the token-name ladder in `handleUse` (apostrophes
in names elided throughout the model); the conditions are tested in source
order, anything unmatched falling through to the legacy-charm default. -/
inductive TokenKind
  | hookStabilizer | tideToken | gleamPolish | scholarsNote | echoReelTok | luckCharm
  | tradersMark | waypointCharter | surveyBeacon | chestKey | prospectorsLens
  | craftingBoosterKit | enchantersSpark | legacy
deriving DecidableEq, Repr

/-- The `if name === '...'` ladder of the token branch, as a selector. -/
def tokenKindOf (name : String) : TokenKind :=
  if name = "hook stabilizer" then .hookStabilizer
  else if name = "tide token" then .tideToken
  else if name = "gleam polish" then .gleamPolish
  else if name = "scholars note" then .scholarsNote
  else if name = "echo reel" then .echoReelTok
  else if name = "luck charm" then .luckCharm
  else if name = "traders mark" then .tradersMark
  else if name = "waypoint charter" then .waypointCharter
  else if name = "survey beacon" then .surveyBeacon
  else if name = "chest key" then .chestKey
  else if name = "prospectors lens" then .prospectorsLens
  else if name = "crafting booster kit" then .craftingBoosterKit
  else if name = "enchanters spark" then .enchantersSpark
  else .legacy

/-- The name-dispatch of the token branch of `handleUse`, applied to the
player record after the token was consumed. The boolean marks the
traders-mark branch, which is routed through the timed-buff registry by
`useTokenItem`. -/
def useTokenDispatch (s0 : PlayerState) (name : String) (now : ℤ)
    (currentBiome : Biome) : PlayerState × Bool :=
  match tokenKindOf name with
  | .hookStabilizer => ({ s0 with stabilizerCharges := s0.stabilizerCharges + 1 }, false)
  | .tideToken =>
      ({ s0 with activeBait := some ⟨0, 0, 1, some (now + 30 * 60 * 1000), some 1, none⟩ }, false)
  | .gleamPolish =>
      ({ s0 with activeBait := some ⟨0, 2/5, 1, some (now + 30 * 60 * 1000), none, none⟩ }, false)
  | .scholarsNote =>
      ({ s0 with activeBait := some ⟨0, 0, 1, some (now + 30 * 60 * 1000), none, some (1/2)⟩ }, false)
  | .echoReelTok => ({ s0 with echoReelCharges := s0.echoReelCharges + 1 }, false)
  | .luckCharm =>
      ({ s0 with activeCharm := some ⟨now + 3 * 60 * 1000, 8/100, 5/100⟩ }, false)
  | .tradersMark => (s0, true)
  | .waypointCharter =>
      match prevBiome currentBiome with
      | none => (s0, false)
      | some prev =>
          ({ s0 with biomeKey := prev.key, isCasting := false, hasTug := false }, false)
  | .surveyBeacon =>
      ({ s0 with activeBait := some ⟨1/2, 1/10, 1, some (now + 30 * 60 * 1000), none, none⟩ }, false)
  | .chestKey => ({ s0 with chestUpgrade := true }, false)
  | .prospectorsLens => ({ s0 with chestMinRarityIndex := some 3 }, false)
  | .craftingBoosterKit =>
      ({ s0 with craftingBoostCharges := s0.craftingBoostCharges + 1 }, false)
  | .enchantersSpark =>
      ({ s0 with enchantBoostCharges := s0.enchantBoostCharges + 1 }, false)
  | .legacy => ({ s0 with activeCharm := some ⟨now + 120000, 1/10, 1/10⟩ }, false)

/-- The token branch of `handleUse`: consume the token, then dispatch on
its lowercased name; the traders-mark branch adds a +15% value timed buff
for 5 minutes through the registry. -/
def useTokenItem (e : EngineState) (idx : ℕ) (now : ℤ) (grantId : ℕ)
    (currentBiome : Biome) : EngineState :=
  match e.player.inventory.get? idx with
  | some item =>
      if item.itemType = some "token" then
        let s0 := { e.player with inventory := e.player.inventory.eraseIdx idx }
        let r := useTokenDispatch s0 item.name.toLower now currentBiome
        if r.2 then
          addTimedBuffValue { e with player := r.1 } (15/100) (5 * 60 * 1000) now grantId
        else { e with player := r.1 }
      else e
  | none => e

/-! ## Trading (`panelTradeList`, `panelTradeBuy`, `panelTradeCancel`),
restricted to the per-player record effects (the channel board itself holds
no counted resources of the player record). -/

/-- `panelTradeList`: with trading unlocked, listing removes the item from
the seller's inventory. -/
def panelTradeListSeller (state : PlayerState) (idx : ℕ) : PlayerState :=
  if !state.tradingUnlocked then state
  else if idx < state.inventory.length then
    { state with inventory := state.inventory.eraseIdx idx }
  else state

/-- `panelTradeBuy`, buyer side: funds and capacity are validated before the
debit and the item transfer. -/
def panelTradeBuyBuyer (state : PlayerState) (item : InventoryItem) (price : ℤ) :
    PlayerState :=
  if state.gold < price then state
  else if state.inventory.length ≥ state.inventoryCap then state
  else { state with gold := state.gold - price, inventory := state.inventory ++ [item] }

/-- `panelTradeBuy`, seller side: credit the price. -/
def panelTradeSellerCredit (state : PlayerState) (price : ℤ) : PlayerState :=
  { state with gold := state.gold + price }

/-- `panelTradeCancel`, seller side: the item returns to the bag, or its
value is refunded when the bag is full. -/
def panelTradeCancelSeller (state : PlayerState) (item : InventoryItem) : PlayerState :=
  if state.inventory.length < state.inventoryCap then
    { state with inventory := state.inventory ++ [item] }
  else { state with gold := state.gold + item.value }

/-- `handleResetProfile`: a privileged reset back to the default record
(buff registries cleared with it). -/
def resetProfileOp : EngineState :=
  ⟨baseState, [], []⟩

/-! ## The engine's operations as a step relation

Every player-record mutation performed by the command handlers and timer
callbacks, with the random draws and clock readings as constructor
parameters. Read-only handlers (`fish`, `store`, `upgrades`, `inventory`,
`level`, `theme`, `save`, `panel`, cooldown admin) do not mutate the player
record and need no constructor. -/

/-- Lift a pure player-record operation to the engine state. -/
def liftP (f : PlayerState → PlayerState) (e : EngineState) : EngineState :=
  { e with player := f e.player }

inductive Step : EngineState → EngineState → Prop
  | cast (e : EngineState) (now : ℤ) : Step e (liftP (handleCast now) e)
  | tug (e : EngineState) : Step e (liftP tugFire e)
  | decay (e : EngineState) : Step e (liftP decayFire e)
  | reel (e : EngineState) (now : ℤ) (events : List GlobalEvent) (biome : Biome)
      (rng : ReelRand) :
      Step e (liftP (fun s => (handleReel now events biome rng s).1) e)
  | buyPrestige (e : EngineState) :
      Step e (liftP (fun s => (FishLooter.buyPrestige s).1) e)
  | buyJournal (e : EngineState) (now : ℤ) (id : ℕ) : Step e (buyJournalOp e now id)
  | buyRod (e : EngineState) (now : ℤ) (id : ℕ) : Step e (buyRodOp e now id)
  | buyStat (e : EngineState) (upgrade : UpgradeDefinition) :
      Step e (liftP (fun s => buyStatUpgrade s upgrade) e)
  | buyBag (e : EngineState) (unitCost : ℤ) (quantity : ℕ) :
      Step e (liftP (fun s => buyBagUpgrade s unitCost quantity) e)
  | buyItem (e : EngineState) (item : StoreItem) (unitCost : ℤ) (quantity : ℕ) :
      Step e (liftP (fun s => buyStoreItem s item unitCost quantity) e)
  | buySkinStep (e : EngineState) (skinId : String) (levelReq skinCost : ℤ) :
      Step e (liftP (fun s => buySkin s skinId levelReq skinCost) e)
  | sellAll (e : EngineState) : Step e (liftP handleSellAll e)
  | sellOne (e : EngineState) (query : Option String) :
      Step e (liftP (fun s => handleSellOne s query) e)
  | craft (e : EngineState) (recipe : CraftingRecipe) (hr : recipe ∈ craftingRecipes) :
      Step e (liftP (fun s => (panelCraft s recipe).1) e)
  | enchant (e : EngineState) (essence : EssenceId) :
      Step e (liftP (fun s => panelEnchant s essence) e)
  | dupMaterial (e : EngineState) (target : MaterialId) :
      Step e (liftP (fun s => duplicateMaterial s target) e)
  | dupItem (e : EngineState) (query : String) :
      Step e (liftP (fun s => duplicateItem s query) e)
  | useBait (e : EngineState) (idx : ℕ) (now : ℤ) :
      Step e (liftP (fun s => useBaitItem s idx now) e)
  | useCompass (e : EngineState) (idx : ℕ) (biome : Biome) :
      Step e (liftP (fun s => useCompassItem s idx biome) e)
  | useMap (e : EngineState) (idx : ℕ) (biome : Biome) (cacheItem : InventoryItem) :
      Step e (liftP (fun s => useMapItem s idx biome cacheItem) e)
  | useChest (e : EngineState) (idx : ℕ) (biome : Biome) (reward : InventoryItem) :
      Step e (liftP (fun s => useChestItem s idx biome reward) e)
  | useScroll (e : EngineState) (targetRarity : RarityIdx) :
      Step e (liftP (fun s => useScrollItem s targetRarity) e)
  | useToken (e : EngineState) (idx : ℕ) (now : ℤ) (grantId : ℕ) (biome : Biome) :
      Step e (useTokenItem e idx now grantId biome)
  | tradeList (e : EngineState) (idx : ℕ) :
      Step e (liftP (fun s => panelTradeListSeller s idx) e)
  | tradeBuy (e : EngineState) (item : InventoryItem) (price : ℤ) :
      Step e (liftP (fun s => panelTradeBuyBuyer s item price) e)
  | tradeCredit (e : EngineState) (price : ℤ) :
      Step e (liftP (fun s => panelTradeSellerCredit s price) e)
  | tradeCancel (e : EngineState) (item : InventoryItem) :
      Step e (liftP (fun s => panelTradeCancelSeller s item) e)
  | expireXp (e : EngineState) (id : ℕ) (now : ℤ) : Step e (expireXpGrant e id now)
  | expireValue (e : EngineState) (id : ℕ) (now : ℤ) : Step e (expireValueGrant e id now)
  | charmOff (e : EngineState) : Step e (liftP charmExpire e)
  | resetProfile (e : EngineState) : Step e resetProfileOp

/-- The starting engine state: a fresh default player, no buff grants. -/
def initialEngine : EngineState := ⟨baseState, [], []⟩

/-- States reachable from a fresh player via the engine's operations. -/
def Reachable (e : EngineState) : Prop :=
  Relation.ReflTransGen Step initialEngine e

/-- The claimed state invariant: bounded inventory, non-negative material
and essence counts. -/
def CountsOk (s : PlayerState) : Prop :=
  s.inventory.length ≤ s.inventoryCap ∧ (∀ m, 0 ≤ s.materials m) ∧ (∀ e, 0 ≤ s.essences e)

/-- The combined inductive invariant (also tracks the prestige cap). -/
def GoodState (s : PlayerState) : Prop := CountsOk s ∧ s.prestigeCount ≤ 3

/-! ### Invariant preservation, operation by operation -/

lemma goodState_frame {s s' : PlayerState}
    (hinv : s'.inventory = s.inventory) (hcap : s'.inventoryCap = s.inventoryCap)
    (hm : s'.materials = s.materials) (he : s'.essences = s.essences)
    (hp : s'.prestigeCount = s.prestigeCount) (h : GoodState s) : GoodState s' := by
  obtain ⟨⟨h1, h2, h3⟩, h4⟩ := h
  exact ⟨⟨by rw [hinv, hcap]; exact h1, by rw [hm]; exact h2, by rw [he]; exact h3⟩,
    by rw [hp]; exact h4⟩

lemma goodState_applyCatchRewards {s : PlayerState} (item : InventoryItem)
    (rarity : RarityConfig) (biome : Biome) (x g : ℚ) (h : GoodState s) :
    GoodState (applyCatchRewards s item rarity biome x g).1 := by
  obtain ⟨⟨h1, h2, h3⟩, h4⟩ := h
  refine ⟨⟨?_, ?_, ?_⟩, ?_⟩ <;> simp only [applyCatchRewards]
  · split
    · next hlt => simpa using hlt
    · exact h1
  · exact h2
  · exact h3
  · exact h4

lemma goodState_applyBonusCatches {s : PlayerState} (biome : Biome)
    (rarity : RarityConfig) (eff : EventEffects) (items : ℕ → InventoryItem) (n : ℕ)
    (h : GoodState s) : GoodState (applyBonusCatches biome rarity eff items n s) := by
  induction n generalizing s with
  | zero => exact h
  | succ k ih =>
      exact ih (goodState_applyCatchRewards _ _ _ _ _ h)

lemma goodState_maybeAwardCosmicDust {s : PlayerState} (biome : Biome) (hit extra : Bool)
    (h : GoodState s) : GoodState (maybeAwardCosmicDust s biome hit extra).1 := by
  obtain ⟨⟨h1, h2, h3⟩, h4⟩ := h
  unfold maybeAwardCosmicDust
  split
  · exact ⟨⟨h1, h2, h3⟩, h4⟩
  · split
    · refine ⟨⟨h1, ?_, h3⟩, h4⟩
      intro m
      by_cases hm : m = .cosmicDust <;> simp [hm]
      · have := h2 MaterialId.cosmicDust
        positivity
      · exact h2 m
    · exact ⟨⟨h1, h2, h3⟩, h4⟩

lemma goodState_applyScrollDrop {s : PlayerState} (drop : Option InventoryItem)
    (h : GoodState s) : GoodState (applyScrollDrop s drop) := by
  obtain ⟨⟨h1, h2, h3⟩, h4⟩ := h
  unfold applyScrollDrop
  split
  · split
    · next bonus =>
        split
        · next hlt => exact ⟨⟨by simpa using hlt, h2, h3⟩, h4⟩
        · exact ⟨⟨h1, h2, h3⟩, h4⟩
    · exact ⟨⟨h1, h2, h3⟩, h4⟩
  · exact ⟨⟨h1, h2, h3⟩, h4⟩

lemma goodState_applyEchoReel {s : PlayerState} (biome : Biome) (rarity : RarityConfig)
    (eff : EventEffects) (echoItem : InventoryItem) (h : GoodState s) :
    GoodState (applyEchoReel s biome rarity eff echoItem) := by
  unfold applyEchoReel
  split
  · exact goodState_applyCatchRewards _ _ _ _ _
      (goodState_frame rfl rfl rfl rfl rfl h)
  · exact h

lemma goodState_decBait {s : PlayerState} (h : GoodState s) :
    GoodState { s with activeBait := decBait s.activeBait } :=
  goodState_frame rfl rfl rfl rfl rfl h

lemma goodState_resolveReel {s : PlayerState} (now : ℤ) (events : List GlobalEvent)
    (biome : Biome) (rng : ReelRand) (h : GoodState s) :
    GoodState (resolveReel now events biome rng s).1 := by
  unfold resolveReel
  exact goodState_decBait (goodState_applyEchoReel _ _ _ _
    (goodState_applyScrollDrop _ (goodState_applyBonusCatches _ _ _ _ _
      (goodState_maybeAwardCosmicDust _ _ _
        (goodState_applyCatchRewards _ _ _ _ _ h)))))

lemma goodState_handleReel {s : PlayerState} (now : ℤ) (events : List GlobalEvent)
    (biome : Biome) (rng : ReelRand) (h : GoodState s) :
    GoodState (handleReel now events biome rng s).1 := by
  cases hc : s.isCasting with
  | false =>
      have hr : (handleReel now events biome rng s).1 = s := by simp [handleReel, hc]
      rw [hr]; exact h
  | true =>
      cases ht : s.hasTug with
      | true =>
          have hr : handleReel now events biome rng s =
              resolveReel now events biome rng { s with hasTug := false, isCasting := false } := by
            simp [handleReel, hc, ht]
          rw [hr]
          exact goodState_resolveReel _ _ _ _ (goodState_frame rfl rfl rfl rfl rfl h)
      | false =>
          by_cases hst : s.stabilizerCharges > 0
          · have hr : handleReel now events biome rng s =
                resolveReel now events biome rng { s with stabilizerCharges := s.stabilizerCharges - 1, hasTug := false, isCasting := false } := by
              simp [handleReel, hc, ht, hst]
            rw [hr]
            exact goodState_resolveReel _ _ _ _ (goodState_frame rfl rfl rfl rfl rfl h)
          · have hr : (handleReel now events biome rng s).1 =
                { s with isCasting := false, activeBait := decBait s.activeBait } := by
              simp [handleReel, hc, ht, hst]
            rw [hr]
            exact goodState_frame rfl rfl rfl rfl rfl h

lemma goodState_handleCast {s : PlayerState} (now : ℤ) (h : GoodState s) :
    GoodState (handleCast now s) := by
  unfold handleCast
  split
  · exact h
  · exact goodState_frame rfl rfl rfl rfl rfl h

lemma goodState_decayFire {s : PlayerState} (h : GoodState s) : GoodState (decayFire s) := by
  unfold decayFire
  split
  · exact goodState_frame rfl rfl rfl rfl rfl h
  · exact h

lemma goodState_tugFire {s : PlayerState} (h : GoodState s) : GoodState (tugFire s) :=
  goodState_frame rfl rfl rfl rfl rfl h

lemma goodState_buyPrestige {s : PlayerState} (h : GoodState s) :
    GoodState (buyPrestige s).1 := by
  obtain ⟨⟨h1, h2, h3⟩, h4⟩ := h
  by_cases c1 : s.prestigeCount ≥ 3
  · simpa [buyPrestige, c1] using (⟨⟨h1, h2, h3⟩, h4⟩ : GoodState s)
  · by_cases c2 : s.level < 60
    · simpa [buyPrestige, c1, c2] using (⟨⟨h1, h2, h3⟩, h4⟩ : GoodState s)
    · by_cases c3 : s.gold < prestigeTierCost (s.prestigeCount + 1)
      · simpa [buyPrestige, c1, c2, c3] using (⟨⟨h1, h2, h3⟩, h4⟩ : GoodState s)
      · refine ⟨⟨?_, ?_, ?_⟩, ?_⟩
        all_goals simp [buyPrestige, c1, c2, c3, h1, h2, h3]
        omega

lemma goodState_buyTimedUpgrade {s : PlayerState} (key : String) (cost now : ℤ)
    (h : GoodState s) : GoodState (buyTimedUpgrade s key cost now).1 := by
  refine goodState_frame ?_ ?_ ?_ ?_ ?_ h <;>
    (simp only [buyTimedUpgrade]; repeat' split) <;> rfl

lemma goodState_buyStatUpgrade {s : PlayerState} (upgrade : UpgradeDefinition)
    (h : GoodState s) : GoodState (buyStatUpgrade s upgrade) := by
  refine goodState_frame ?_ ?_ ?_ ?_ ?_ h <;>
    (simp only [buyStatUpgrade]; repeat' split) <;> rfl

lemma goodState_buyBagUpgrade {s : PlayerState} (unitCost : ℤ) (quantity : ℕ)
    (h : GoodState s) : GoodState (buyBagUpgrade s unitCost quantity) := by
  obtain ⟨⟨h1, h2, h3⟩, h4⟩ := h
  simp only [buyBagUpgrade]
  split
  · exact ⟨⟨h1, h2, h3⟩, h4⟩
  · next hrem =>
      split
      · exact ⟨⟨h1, h2, h3⟩, h4⟩
      · next hqty =>
          split
          · exact ⟨⟨h1, h2, h3⟩, h4⟩
          · refine ⟨⟨?_, h2, h3⟩, h4⟩
            simp only
            have hstep : (0:ℤ) < (inventoryCapStep : ℤ) := by norm_num [inventoryCapStep]
            have hd1 : (1:ℤ) ≤ ((inventoryCapMax : ℤ) - s.inventoryCap) / (inventoryCapStep : ℤ) := by
              omega
            have hq' : (quantity : ℤ) ≤ ((inventoryCapMax : ℤ) - s.inventoryCap) / (inventoryCapStep : ℤ) := by
              omega
            have e1 := (Int.le_ediv_iff_mul_le hstep).mp hd1
            have e2 := (Int.le_ediv_iff_mul_le hstep).mp hq'
            simp only [inventoryCapMax, inventoryCapStep] at e1 e2 ⊢
            omega

lemma goodState_buyStoreItem {s : PlayerState} (item : StoreItem) (unitCost : ℤ)
    (quantity : ℕ) (h : GoodState s) : GoodState (buyStoreItem s item unitCost quantity) := by
  obtain ⟨⟨h1, h2, h3⟩, h4⟩ := h
  simp only [buyStoreItem]
  split
  · exact ⟨⟨h1, h2, h3⟩, h4⟩
  · split
    · exact ⟨⟨h1, h2, h3⟩, h4⟩
    · split
      · exact ⟨⟨h1, h2, h3⟩, h4⟩
      · split
        · exact ⟨⟨h1, h2, h3⟩, h4⟩
        · next hspace =>
            split
            · exact ⟨⟨h1, h2, h3⟩, h4⟩
            · refine ⟨⟨?_, h2, h3⟩, h4⟩
              simp only [List.length_append, List.length_replicate]
              simp only [not_lt] at hspace
              omega

lemma goodState_buySkin {s : PlayerState} (skinId : String) (levelReq skinCost : ℤ)
    (h : GoodState s) : GoodState (buySkin s skinId levelReq skinCost) := by
  obtain ⟨⟨h1, h2, h3⟩, h4⟩ := h
  simp only [buySkin]
  split
  · exact ⟨⟨h1, h2, h3⟩, h4⟩
  · split
    · exact ⟨⟨h1, h2, h3⟩, h4⟩
    · split
      · exact ⟨⟨h1, h2, h3⟩, h4⟩
      · exact ⟨⟨h1, h2, h3⟩, h4⟩

lemma goodState_handleSellAll {s : PlayerState} (h : GoodState s) :
    GoodState (handleSellAll s) := by
  obtain ⟨⟨_h1, h2, h3⟩, h4⟩ := h
  exact ⟨⟨by simp [handleSellAll], h2, h3⟩, h4⟩

lemma goodState_handleSellOne {s : PlayerState} (query : Option String) (h : GoodState s) :
    GoodState (handleSellOne s query) := by
  obtain ⟨⟨h1, h2, h3⟩, h4⟩ := h
  simp only [handleSellOne]
  split
  · exact ⟨⟨h1, h2, h3⟩, h4⟩
  · split
    · refine ⟨⟨?_, h2, h3⟩, h4⟩
      simp only
      exact le_trans (List.length_eraseIdx_le _ _) h1
    · split
      · exact ⟨⟨h1, h2, h3⟩, h4⟩
      · next sold rest heq =>
          refine ⟨⟨?_, h2, h3⟩, h4⟩
          simp only
          rw [heq] at h1
          simp at h1
          omega

lemma deductCosts_nonneg (costs : List (MaterialId × ℤ)) (materials : MaterialId → ℤ)
    (h : ∀ m, 0 ≤ materials m) : ∀ m, 0 ≤ deductCosts materials costs m := by
  induction costs generalizing materials with
  | nil => exact h
  | cons mc rest ih =>
      simp only [deductCosts, List.foldl_cons] at *
      apply ih
      intro m
      by_cases hm : m = mc.1
      · simp [hm]
      · simp only [hm, if_false]
        exact h m

lemma grantMaterials_nonneg (grants : List (MaterialId × ℤ)) (materials : MaterialId → ℤ)
    (h : ∀ m, 0 ≤ materials m) (hg : ∀ mc ∈ grants, 0 ≤ mc.2) :
    ∀ m, 0 ≤ grantMaterials materials grants m := by
  induction grants generalizing materials with
  | nil => exact h
  | cons mc rest ih =>
      simp only [grantMaterials, List.foldl_cons] at *
      apply ih
      · intro m
        by_cases hm : m = mc.1
        · have h1 := hg mc (by simp)
          have h2 := h mc.1
          simp [hm]
          omega
        · simp only [hm, if_false]
          exact h m
      · intro x hx
        exact hg x (by simp [hx])

lemma craftingRecipes_grants_nonneg :
    ∀ r ∈ craftingRecipes, ∀ mc ∈ r.grantsMaterials, 0 ≤ mc.2 := by decide

lemma goodState_panelCraft {s : PlayerState} (recipe : CraftingRecipe)
    (hr : recipe ∈ craftingRecipes) (h : GoodState s) :
    GoodState (panelCraft s recipe).1 := by
  obtain ⟨⟨h1, h2, h3⟩, h4⟩ := h
  have hmats : ∀ m, 0 ≤ grantMaterials (deductCosts s.materials recipe.costs)
      recipe.grantsMaterials m :=
    grantMaterials_nonneg _ _ (deductCosts_nonneg _ _ h2)
      (craftingRecipes_grants_nonneg recipe hr)
  simp only [panelCraft]
  split
  · exact ⟨⟨h1, h2, h3⟩, h4⟩
  · split
    · exact ⟨⟨h1, h2, h3⟩, h4⟩
    · split
      · next item =>
          split
          · exact ⟨⟨h1, hmats, h3⟩, h4⟩
          · next hfull =>
              refine ⟨⟨?_, hmats, h3⟩, h4⟩
              have hf2 : s.inventory.length < s.inventoryCap := by simpa using hfull
              simp only [List.length_append, List.length_cons, List.length_nil]
              omega
      · exact ⟨⟨h1, hmats, h3⟩, h4⟩

lemma goodState_panelEnchant {s : PlayerState} (essence : EssenceId) (h : GoodState s) :
    GoodState (panelEnchant s essence) := by
  obtain ⟨⟨h1, h2, h3⟩, h4⟩ := h
  simp only [panelEnchant]
  split
  · exact ⟨⟨h1, h2, h3⟩, h4⟩
  · split
    · exact ⟨⟨h1, h2, h3⟩, h4⟩
    · next hpos =>
        refine ⟨⟨h1, h2, ?_⟩, h4⟩
        intro e
        simp only
        by_cases he : e = essence
        · simp only [he, if_pos rfl]
          simp only [not_le] at hpos
          omega
        · simp only [he, if_false]
          exact h3 e

lemma goodState_duplicateMaterial {s : PlayerState} (target : MaterialId)
    (h : GoodState s) : GoodState (duplicateMaterial s target) := by
  obtain ⟨⟨h1, h2, h3⟩, h4⟩ := h
  simp only [duplicateMaterial]
  split
  · exact ⟨⟨h1, h2, h3⟩, h4⟩
  · split
    · exact ⟨⟨h1, h2, h3⟩, h4⟩
    · split
      · exact ⟨⟨h1, h2, h3⟩, h4⟩
      · next hdust howned hcost =>
          refine ⟨⟨h1, ?_, h3⟩, h4⟩
          intro m
          simp only
          have hd := h2 MaterialId.cosmicDust
          have ho := h2 target
          by_cases hm : m = target
          · simp only [hm, if_pos rfl]
            omega
          · simp only [hm, if_false]
            by_cases hm2 : m = MaterialId.cosmicDust
            · simp only [hm2, if_pos rfl]
              omega
            · simp only [hm2, if_false]
              exact h2 m

lemma goodState_duplicateItem {s : PlayerState} (query : String) (h : GoodState s) :
    GoodState (duplicateItem s query) := by
  obtain ⟨⟨h1, h2, h3⟩, h4⟩ := h
  simp only [duplicateItem]
  split
  · exact ⟨⟨h1, h2, h3⟩, h4⟩
  · split
    · exact ⟨⟨h1, h2, h3⟩, h4⟩
    · next hfull =>
        split
        · exact ⟨⟨h1, h2, h3⟩, h4⟩
        · next found hfound =>
            split
            · exact ⟨⟨h1, h2, h3⟩, h4⟩
            · next hcost =>
                refine ⟨⟨?_, ?_, h3⟩, h4⟩
                · simp only [List.length_append, List.length_cons, List.length_nil]
                  simp only [not_le] at hfull
                  omega
                · intro m
                  have hdust := h2 MaterialId.cosmicDust
                  simp only [not_lt] at hcost
                  by_cases hm : m = MaterialId.cosmicDust
                  · simp [hm]
                    omega
                  · simp only [hm, if_false]
                    exact h2 m

lemma goodState_useBaitItem {s : PlayerState} (idx : ℕ) (now : ℤ) (h : GoodState s) :
    GoodState (useBaitItem s idx now) := by
  obtain ⟨⟨h1, h2, h3⟩, h4⟩ := h
  simp only [useBaitItem]
  split
  · split
    · exact ⟨⟨le_trans (List.length_eraseIdx_le _ _) h1, h2, h3⟩, h4⟩
    · exact ⟨⟨h1, h2, h3⟩, h4⟩
  · exact ⟨⟨h1, h2, h3⟩, h4⟩

lemma goodState_useCompassItem {s : PlayerState} (idx : ℕ) (biome : Biome)
    (h : GoodState s) : GoodState (useCompassItem s idx biome) := by
  obtain ⟨⟨h1, h2, h3⟩, h4⟩ := h
  have hle := le_trans (List.length_eraseIdx_le s.inventory idx) h1
  simp only [useCompassItem]
  split
  · split
    · split
      · exact ⟨⟨hle, h2, h3⟩, h4⟩
      · exact ⟨⟨hle, h2, h3⟩, h4⟩
    · exact ⟨⟨h1, h2, h3⟩, h4⟩
  · exact ⟨⟨h1, h2, h3⟩, h4⟩

lemma goodState_grantXp {s : PlayerState} (amount : ℤ) (h : GoodState s) :
    GoodState (grantXp s amount).1 := by
  obtain ⟨⟨h1, h2, h3⟩, h4⟩ := h
  exact ⟨⟨h1, h2, h3⟩, h4⟩

lemma goodState_storeCache {s : PlayerState} (item : InventoryItem) (h : GoodState s) :
    GoodState (if s.inventory.length < s.inventoryCap then
      { s with inventory := s.inventory ++ [item] }
    else { s with gold := s.gold + item.value }) := by
  obtain ⟨⟨h1, h2, h3⟩, h4⟩ := h
  split
  · next hlt =>
      refine ⟨⟨?_, h2, h3⟩, h4⟩
      simp only [List.length_append, List.length_cons, List.length_nil]
      omega
  · exact ⟨⟨h1, h2, h3⟩, h4⟩

lemma goodState_useMapItem {s : PlayerState} (idx : ℕ) (biome : Biome)
    (cacheItem : InventoryItem) (h : GoodState s) :
    GoodState (useMapItem s idx biome cacheItem) := by
  obtain ⟨⟨h1, h2, h3⟩, h4⟩ := h
  simp only [useMapItem]
  split
  · split
    · apply goodState_storeCache
      apply goodState_grantXp
      exact ⟨⟨le_trans (List.length_eraseIdx_le _ _) h1, h2, h3⟩, h4⟩
    · exact ⟨⟨h1, h2, h3⟩, h4⟩
  · exact ⟨⟨h1, h2, h3⟩, h4⟩

lemma goodState_useChestItem {s : PlayerState} (idx : ℕ) (biome : Biome)
    (reward : InventoryItem) (h : GoodState s) :
    GoodState (useChestItem s idx biome reward) := by
  obtain ⟨⟨h1, h2, h3⟩, h4⟩ := h
  have hle := le_trans (List.length_eraseIdx_le s.inventory idx) h1
  simp only [useChestItem]
  split
  · split
    · split
      · exact ⟨⟨hle, h2, h3⟩, h4⟩
      · next hfull =>
          refine ⟨⟨?_, h2, h3⟩, h4⟩
          have hf2 : (s.inventory.eraseIdx idx).length < s.inventoryCap := by
            simpa using hfull
          simp only [List.length_append, List.length_cons, List.length_nil]
          omega
    · exact ⟨⟨h1, h2, h3⟩, h4⟩
  · exact ⟨⟨h1, h2, h3⟩, h4⟩

lemma goodState_useScrollItem {s : PlayerState} (targetRarity : RarityIdx)
    (h : GoodState s) : GoodState (useScrollItem s targetRarity) := by
  obtain ⟨⟨h1, h2, h3⟩, h4⟩ := h
  simp only [useScrollItem]
  split
  · exact ⟨⟨h1, h2, h3⟩, h4⟩
  · split
    · exact ⟨⟨le_trans (List.length_eraseIdx_le _ _) h1, h2, h3⟩, h4⟩
    · exact ⟨⟨h1, h2, h3⟩, h4⟩

lemma goodState_panelTradeListSeller {s : PlayerState} (idx : ℕ) (h : GoodState s) :
    GoodState (panelTradeListSeller s idx) := by
  obtain ⟨⟨h1, h2, h3⟩, h4⟩ := h
  simp only [panelTradeListSeller]
  split
  · exact ⟨⟨h1, h2, h3⟩, h4⟩
  · split
    · exact ⟨⟨le_trans (List.length_eraseIdx_le _ _) h1, h2, h3⟩, h4⟩
    · exact ⟨⟨h1, h2, h3⟩, h4⟩

lemma goodState_panelTradeBuyBuyer {s : PlayerState} (item : InventoryItem) (price : ℤ)
    (h : GoodState s) : GoodState (panelTradeBuyBuyer s item price) := by
  obtain ⟨⟨h1, h2, h3⟩, h4⟩ := h
  simp only [panelTradeBuyBuyer]
  split
  · exact ⟨⟨h1, h2, h3⟩, h4⟩
  · split
    · exact ⟨⟨h1, h2, h3⟩, h4⟩
    · next hfull =>
        refine ⟨⟨?_, h2, h3⟩, h4⟩
        simp only [List.length_append, List.length_cons, List.length_nil]
        simp only [not_le] at hfull
        omega

lemma goodState_panelTradeSellerCredit {s : PlayerState} (price : ℤ) (h : GoodState s) :
    GoodState (panelTradeSellerCredit s price) :=
  goodState_frame rfl rfl rfl rfl rfl h

lemma goodState_panelTradeCancelSeller {s : PlayerState} (item : InventoryItem)
    (h : GoodState s) : GoodState (panelTradeCancelSeller s item) := by
  obtain ⟨⟨h1, h2, h3⟩, h4⟩ := h
  simp only [panelTradeCancelSeller]
  split
  · next hlt =>
      refine ⟨⟨?_, h2, h3⟩, h4⟩
      simp only [List.length_append, List.length_cons, List.length_nil]
      omega
  · exact ⟨⟨h1, h2, h3⟩, h4⟩

lemma goodState_charmExpire {s : PlayerState} (h : GoodState s) :
    GoodState (charmExpire s) :=
  goodState_frame rfl rfl rfl rfl rfl h

lemma goodState_addTimedBuffXp {e : EngineState} (amount : ℚ) (durationMs now : ℤ)
    (id : ℕ) (h : GoodState e.player) :
    GoodState (addTimedBuffXp e amount durationMs now id).player :=
  goodState_frame rfl rfl rfl rfl rfl h

lemma goodState_addTimedBuffValue {e : EngineState} (amount : ℚ) (durationMs now : ℤ)
    (id : ℕ) (h : GoodState e.player) :
    GoodState (addTimedBuffValue e amount durationMs now id).player :=
  goodState_frame rfl rfl rfl rfl rfl h

lemma goodState_expireXpGrant {e : EngineState} (id : ℕ) (now : ℤ)
    (h : GoodState e.player) : GoodState (expireXpGrant e id now).player :=
  goodState_frame rfl rfl rfl rfl rfl h

lemma goodState_expireValueGrant {e : EngineState} (id : ℕ) (now : ℤ)
    (h : GoodState e.player) : GoodState (expireValueGrant e id now).player :=
  goodState_frame rfl rfl rfl rfl rfl h

lemma goodState_buyJournalOp {e : EngineState} (now : ℤ) (id : ℕ)
    (h : GoodState e.player) : GoodState (buyJournalOp e now id).player := by
  simp only [buyJournalOp]
  split
  · exact goodState_addTimedBuffXp _ _ _ _ (goodState_buyTimedUpgrade _ _ _ h)
  · exact goodState_buyTimedUpgrade _ _ _ h

lemma goodState_buyRodOp {e : EngineState} (now : ℤ) (id : ℕ)
    (h : GoodState e.player) : GoodState (buyRodOp e now id).player := by
  simp only [buyRodOp]
  split
  · exact goodState_addTimedBuffValue _ _ _ _ (goodState_buyTimedUpgrade _ _ _ h)
  · exact goodState_buyTimedUpgrade _ _ _ h

lemma goodState_useTokenDispatch {s0 : PlayerState} (name : String) (now : ℤ)
    (biome : Biome) (h : GoodState s0) :
    GoodState (useTokenDispatch s0 name now biome).1 := by
  refine goodState_frame ?_ ?_ ?_ ?_ ?_ h <;>
    (delta useTokenDispatch; cases tokenKindOf name) <;>
    first
      | rfl
      | (cases prevBiome biome <;> rfl)

lemma goodState_useTokenItem {e : EngineState} (idx : ℕ) (now : ℤ) (grantId : ℕ)
    (biome : Biome) (h : GoodState e.player) :
    GoodState (useTokenItem e idx now grantId biome).player := by
  obtain ⟨⟨h1, h2, h3⟩, h4⟩ := h
  have hle := le_trans (List.length_eraseIdx_le e.player.inventory idx) h1
  have hs0 : GoodState { e.player with inventory := e.player.inventory.eraseIdx idx } :=
    ⟨⟨hle, h2, h3⟩, h4⟩
  simp only [useTokenItem]
  split
  · split
    · split
      · exact goodState_addTimedBuffValue _ _ _ _
          (goodState_useTokenDispatch _ _ _ hs0)
      · exact goodState_useTokenDispatch _ _ _ hs0
    · exact ⟨⟨h1, h2, h3⟩, h4⟩
  · exact ⟨⟨h1, h2, h3⟩, h4⟩

lemma goodState_baseState : GoodState baseState :=
  ⟨⟨by decide, fun _ => le_refl 0, fun _ => le_refl 0⟩, by decide⟩

/-- Every engine operation preserves the invariant. -/
lemma goodState_step {e e' : EngineState} (hstep : Step e e') (h : GoodState e.player) :
    GoodState e'.player := by
  cases hstep with
  | cast now => exact goodState_handleCast now h
  | tug => exact goodState_tugFire h
  | decay => exact goodState_decayFire h
  | reel now events biome rng => exact goodState_handleReel now events biome rng h
  | buyPrestige => exact goodState_buyPrestige h
  | buyJournal now id => exact goodState_buyJournalOp now id h
  | buyRod now id => exact goodState_buyRodOp now id h
  | buyStat upgrade => exact goodState_buyStatUpgrade upgrade h
  | buyBag unitCost quantity => exact goodState_buyBagUpgrade unitCost quantity h
  | buyItem item unitCost quantity => exact goodState_buyStoreItem item unitCost quantity h
  | buySkinStep skinId levelReq skinCost => exact goodState_buySkin skinId levelReq skinCost h
  | sellAll => exact goodState_handleSellAll h
  | sellOne query => exact goodState_handleSellOne query h
  | craft recipe hr => exact goodState_panelCraft recipe hr h
  | enchant essence => exact goodState_panelEnchant essence h
  | dupMaterial target => exact goodState_duplicateMaterial target h
  | dupItem query => exact goodState_duplicateItem query h
  | useBait idx now => exact goodState_useBaitItem idx now h
  | useCompass idx biome => exact goodState_useCompassItem idx biome h
  | useMap idx biome cacheItem => exact goodState_useMapItem idx biome cacheItem h
  | useChest idx biome reward => exact goodState_useChestItem idx biome reward h
  | useScroll targetRarity => exact goodState_useScrollItem targetRarity h
  | useToken idx now grantId biome => exact goodState_useTokenItem idx now grantId biome h
  | tradeList idx => exact goodState_panelTradeListSeller idx h
  | tradeBuy item price => exact goodState_panelTradeBuyBuyer item price h
  | tradeCredit price => exact goodState_panelTradeSellerCredit price h
  | tradeCancel item => exact goodState_panelTradeCancelSeller item h
  | expireXp id now => exact goodState_expireXpGrant id now h
  | expireValue id now => exact goodState_expireValueGrant id now h
  | charmOff => exact goodState_charmExpire h
  | resetProfile => exact goodState_baseState

/-- The invariant holds in every reachable state. -/
lemma goodState_reachable {e : EngineState} (h : Reachable e) : GoodState e.player := by
  induction h with
  | refl => exact goodState_baseState
  | tail _ hstep ih => exact goodState_step hstep ih

/-! ## The interaction lock (`interactionLock`, `beginInteraction`,
`armInteractionTimeout`, `refreshInteractionLock`) and the dispatcher's
lock-conflict gate in `processChatCommand`. -/

/-- `interactionTimeoutMs` (25s session window). -/
def interactionTimeoutMs : ℤ := 25 * 1000

/-- `maxInteractionRefreshes`. -/
def maxInteractionRefreshes : ℕ := 2

/-- `DEFAULT_USER_COOLDOWN_MS` (the per-player command cooldown). -/
def userCommandCooldownMs : ℤ := 35 * 1000

/-- The single global `interactionLock` slot (the timer handle is not
state). At most one lock value exists because the slot is one nullable
variable. -/
structure InteractionLock where
  scopedKey : String
  username : String
  mode : String
  expiresAt : ℤ
  refreshesUsed : ℕ
deriving DecidableEq, Repr

/-- `armInteractionTimeout`'s state effect: a lock whose expiry has already
passed is cleared immediately; otherwise only the (unmodelled) timer is
re-armed against the unchanged `expiresAt`. -/
def armInteractionTimeout (now : ℤ) (lock : Option InteractionLock) :
    Option InteractionLock :=
  match lock with
  | none => none
  | some l => if l.expiresAt - now ≤ 0 then none else some l

/-- `beginInteraction(io, state, mode, announce)`: if the caller already
holds the lock, update the mode and re-arm the timeout (the expiry itself
is not touched); otherwise install a fresh lock with the full window. -/
def beginInteraction (now : ℤ) (lock : Option InteractionLock)
    (key user mode : String) : Option InteractionLock :=
  match lock with
  | some l =>
      if l.scopedKey = key then
        armInteractionTimeout now (some { l with mode := mode })
      else
        some { scopedKey := key, username := user, mode := mode,
               expiresAt := now + interactionTimeoutMs, refreshesUsed := 0 }
  | none =>
      some { scopedKey := key, username := user, mode := mode,
             expiresAt := now + interactionTimeoutMs, refreshesUsed := 0 }

/-- `refreshInteractionLock(io, state)`: the holder may extend the expiry to
a fresh full window up to `maxInteractionRefreshes` times. -/
def refreshInteractionLock (now : ℤ) (lock : Option InteractionLock)
    (key : String) : Option InteractionLock :=
  match lock with
  | some l =>
      if l.scopedKey = key then
        if l.refreshesUsed ≥ maxInteractionRefreshes then lock
        else
          armInteractionTimeout now
            (some { l with refreshesUsed := l.refreshesUsed + 1, expiresAt := now + interactionTimeoutMs })
      else lock
  | none => none

/-- `key` holds the lock. -/
def holdsLock (lock : Option InteractionLock) (key : String) : Prop :=
  ∃ l, lock = some l ∧ l.scopedKey = key

/-- The `locked` payload of a `store`/`inventory` overlay event. -/
structure LockedPayload where
  reason : String
  remainingMs : Option ℤ
  refreshesLeft : Option ℕ
deriving DecidableEq, Repr

/-- The conflict status text built in `processChatCommand`. -/
def lockReason (l : InteractionLock) : String :=
  l.username ++ " is using the " ++ l.mode ++ "; please wait until they're done."

/-- The result of the dispatcher's lock-conflict check. -/
inductive GateResult
  | proceed
  | rejected (storePayload invPayload : Option LockedPayload)
deriving DecidableEq, Repr

/-- The lock-conflict gate of `processChatCommand` (before dispatch): when
another player holds the lock, the command is rejected; `store`/`upgrades`
get a `locked` store payload via `emitStoreLocked` whose remaining time is
the requester's own per-player command-cooldown remainder when positive
(`remainingMs > 0 ? remainingMs : undefined`), and `inventory` gets a
`locked` inventory payload via `emitInventoryLocked`, whose remaining time
and refresh count are both absent because the requester is not the holder. -/
def lockConflictGate (lock : Option InteractionLock) (requesterKey command : String)
    (now lastCmd : ℤ) (bypassCooldown : Bool) : GateResult :=
  let remainingMs := if bypassCooldown then 0 else userCommandCooldownMs - (now - lastCmd)
  match lock with
  | some l =>
      if l.scopedKey ≠ requesterKey then
        let storePayload :=
          if command = "store" ∨ command = "upgrades" then
            some ⟨lockReason l, if remainingMs > 0 then some remainingMs else none,
                  some maxInteractionRefreshes⟩
          else none
        let invPayload :=
          if command = "inventory" then some ⟨lockReason l, none, none⟩ else none
        .rejected storePayload invPayload
      else .proceed
  | none => .proceed

/-! ## The store rotation refresh (`handleStoreRefresh`) -/

/-- `storeRefreshCooldownMs` (8h per-player manual-refresh cooldown). -/
def storeRefreshCooldownMs : ℤ := 8 * 60 * 60 * 1000

/-- The rotation cache plus the per-player refresh timestamps
(`storeRotation`, `lastStoreRefresh`). -/
structure StoreState where
  rotation : Option (List StoreItem × ℤ)
  lastRefresh : String → Option ℤ

/-- `handleStoreRefresh(io, state)`: rejected while the caller's personal
8h cooldown runs (`lastStoreRefresh` defaults to 0); otherwise stamp the
caller's cooldown, replace the rotation's items with a fresh pick, and keep
a still-unexpired rotation's expiry (else a full rotation window from now).
The boolean reports whether the refresh went through. -/
def handleStoreRefresh (st : StoreState) (key : String) (now : ℤ)
    (newItems : List StoreItem) (rotationMs : ℤ) : StoreState × Bool :=
  let last := (st.lastRefresh key).getD 0
  if now - last < storeRefreshCooldownMs then (st, false)
  else
    let expiresAt :=
      match st.rotation with
      | some r => if r.2 > now then r.2 else now + rotationMs
      | none => now + rotationMs
    ({ rotation := some (newItems, expiresAt),
       lastRefresh := fun k => if k = key then some now else st.lastRefresh k },
     true)

/-! ## The claims -/

/-- **C1.** For every player state reachable by the engine's operations
(catch resolution with its bonus/echo/scroll paths, buying, crafting,
trading, duplication, chest opening, selling, item use, timed-buff
bookkeeping, prestige, resets), `inventory.length ≤ inventoryCap` holds and
every material and essence count is ≥ 0: each operation that would add an
item first checks capacity (or auto-sells instead of storing), and each
operation that spends materials or essences validates the balance before
deducting. -/
theorem reachable_inventory_bounded_counts_nonneg (e : EngineState) (h : Reachable e) :
    e.player.inventory.length ≤ e.player.inventoryCap ∧
    (∀ m, 0 ≤ e.player.materials m) ∧ (∀ es, 0 ≤ e.player.essences es) :=
  (goodState_reachable h).1

/-- The invariant instantiated at a concrete reachable state: a fresh
player who cast and then reeled in too early. -/
theorem reachable_inventory_bounded_counts_nonneg_witness :
    Reachable (liftP (handleCast 0) initialEngine) ∧
    (liftP (handleCast 0) initialEngine).player.inventory.length ≤
      (liftP (handleCast 0) initialEngine).player.inventoryCap ∧
    0 ≤ (liftP (handleCast 0) initialEngine).player.materials .cosmicDust ∧
    0 ≤ (liftP (handleCast 0) initialEngine).player.essences .sparkEssence := by
  have hr : Reachable (liftP (handleCast 0) initialEngine) :=
    Relation.ReflTransGen.tail Relation.ReflTransGen.refl (Step.cast initialEngine 0)
  have h := reachable_inventory_bounded_counts_nonneg _ hr
  exact ⟨hr, h.1, h.2.1 _, h.2.2 _⟩

/-- **C10.** For every state reachable from the default new-player state,
`prestigeCount ≤ 3`: the prestige purchase rejects with "Maximum prestige
reached." whenever `prestigeCount ≥ 3`, leaving state unchanged — even
though `getUpgrades` still offers a "Prestige Token 4/4" at prestige 3 and
the custom-loot-scroll features (store scrolls, scroll use, scroll drops)
are gated on `prestigeCount ≥ 4`. -/
theorem prestige_capped_at_three :
    (∀ e, Reachable e → e.player.prestigeCount ≤ 3) ∧
    (∀ s : PlayerState, 3 ≤ s.prestigeCount →
        buyPrestige s = (s, some "Maximum prestige reached.")) ∧
    (∃ u ∈ getUpgrades 60 3,
        u.key = "prestige" ∧ u.name = "Prestige Token 4/4" ∧ u.cost = 220000) ∧
    (∀ s item, item.itemType = some "scroll" → s.prestigeCount < 4 →
        isStoreItemUnlocked s item = false) ∧
    (∀ s t, s.prestigeCount < 4 → useScrollItem s t = s) ∧
    (∀ s drop, s.prestigeCount < 4 → applyScrollDrop s drop = s) := by
  refine ⟨fun e h => (goodState_reachable h).2, ?_, ?_, ?_, ?_, ?_⟩
  · intro s h
    have : s.prestigeCount ≥ 3 := h
    simp [buyPrestige, this]
  · refine ⟨⟨"prestige", "Prestige Token 4/4", 220000, 1, "prestige"⟩, ?_, rfl, rfl, rfl⟩
    simp only [getUpgrades, baseUpgrades, prestigeTierCost]
    decide
  · intro s item h1 h2
    simp [isStoreItemUnlocked, h1, h2]
  · intro s t h
    simp [useScrollItem, h]
  · intro s drop h
    unfold applyScrollDrop
    rw [if_neg (by omega)]

/-- The prestige cap instantiated: the fresh player satisfies the cap, and
a prestige-3 player's fourth prestige purchase is rejected unchanged. -/
theorem prestige_capped_at_three_witness :
    initialEngine.player.prestigeCount ≤ 3 ∧
    buyPrestige { baseState with prestigeCount := 3 } =
      ({ baseState with prestigeCount := 3 }, some "Maximum prestige reached.") ∧
    useScrollItem { baseState with prestigeCount := 3 } 0 =
      { baseState with prestigeCount := 3 } := by
  refine ⟨prestige_capped_at_three.1 initialEngine Relation.ReflTransGen.refl, ?_, ?_⟩
  · exact prestige_capped_at_three.2.1 _ (by decide)
  · exact prestige_capped_at_three.2.2.2.2.1 _ _ (by decide)

/-- **C3.** A reel while casting, before the tug, with no stabilizer charge
resolves as a failure: `isCasting` resets to false, a failure catch event is
emitted, and gold, xp, level and inventory are unchanged (no item or reward
granted); with a stabilizer charge available, exactly one charge is
consumed and the reel proceeds exactly as if the tug had fired. -/
theorem reel_before_tug (s : PlayerState) (now : ℤ) (events : List GlobalEvent)
    (biome : Biome) (rng : ReelRand) (hc : s.isCasting = true) (ht : s.hasTug = false) :
    (s.stabilizerCharges ≤ 0 →
      (handleReel now events biome rng s).1.isCasting = false ∧
      (handleReel now events biome rng s).2 = [.catchEvt false] ∧
      (handleReel now events biome rng s).1.gold = s.gold ∧
      (handleReel now events biome rng s).1.xp = s.xp ∧
      (handleReel now events biome rng s).1.level = s.level ∧
      (handleReel now events biome rng s).1.inventory = s.inventory) ∧
    (0 < s.stabilizerCharges →
      handleReel now events biome rng s =
        handleReel now events biome rng
          { s with stabilizerCharges := s.stabilizerCharges - 1, hasTug := true }) := by
  constructor
  · intro h
    have h' : ¬ s.stabilizerCharges > 0 := not_lt.mpr h
    have hr : handleReel now events biome rng s =
        ({ s with isCasting := false, activeBait := decBait s.activeBait },
         [.catchEvt false]) := by
      simp [handleReel, hc, ht, h']
    rw [hr]
    exact ⟨rfl, rfl, rfl, rfl, rfl, rfl⟩
  · intro h
    simp [handleReel, hc, ht, h]

/-- The early-reel branches instantiated: a fresh casting player with no
charge fails in place; with one charge the reel equals a post-tug reel. -/
theorem reel_before_tug_witness :
    (handleReel 0 [] coveBiome
        ⟨⟨0, 52, 5, 12, 6⟩, ⟨"Minnow", 0, 5, none⟩, fun _ => ⟨"Minnow", 0, 5, none⟩,
          ⟨"Minnow", 0, 5, none⟩, false, false, none⟩
        { baseState with isCasting := true }).1.gold = baseState.gold ∧
    handleReel 0 [] coveBiome
        ⟨⟨0, 52, 5, 12, 6⟩, ⟨"Minnow", 0, 5, none⟩, fun _ => ⟨"Minnow", 0, 5, none⟩,
          ⟨"Minnow", 0, 5, none⟩, false, false, none⟩
        { baseState with isCasting := true, stabilizerCharges := 1 } =
      handleReel 0 [] coveBiome
        ⟨⟨0, 52, 5, 12, 6⟩, ⟨"Minnow", 0, 5, none⟩, fun _ => ⟨"Minnow", 0, 5, none⟩,
          ⟨"Minnow", 0, 5, none⟩, false, false, none⟩
        { baseState with isCasting := true, stabilizerCharges := 0, hasTug := true } := by
  constructor
  · exact ((reel_before_tug _ 0 [] coveBiome _ rfl rfl).1 (by decide)).2.2.1
  · exact (reel_before_tug _ 0 [] coveBiome _ rfl rfl).2 (by decide)

/-- **C9** as stated is false: when the current holder opens a session
again, `beginInteraction` updates the mode and re-arms the timer but does
not reset the expiry — here a holder with 5s left re-opens as `inventory`
and still has `expiresAt = 10000`, a remaining time of 5000ms, not the full
25000ms window. -/
theorem beginInteraction_no_expiry_reset_counterexample :
    beginInteraction 5000 (some ⟨"chan__alice", "alice", "store", 10000, 0⟩)
        "chan__alice" "alice" "inventory" =
      some ⟨"chan__alice", "alice", "inventory", 10000, 0⟩ ∧
    (10000 : ℤ) - 5000 ≠ interactionTimeoutMs := by
  exact ⟨by decide, by decide⟩

/-- **C9 amended.** When the current holder opens a store or inventory
session again, only the mode is refreshed: the expiry is left unchanged
(the timeout timer is merely re-armed against it), so the remaining time is
whatever was left, and a lock whose expiry has already passed is cleared
instead. Expiry extension happens only through `refreshInteractionLock`. -/
theorem beginInteraction_same_holder_updates_mode_only (now : ℤ) (l : InteractionLock)
    (key user mode : String) (hk : l.scopedKey = key) :
    (0 < l.expiresAt - now →
      beginInteraction now (some l) key user mode = some { l with mode := mode }) ∧
    (l.expiresAt - now ≤ 0 →
      beginInteraction now (some l) key user mode = none) := by
  constructor
  · intro h
    simp [beginInteraction, hk, armInteractionTimeout, not_le.mpr h]
  · intro h
    simp [beginInteraction, hk, armInteractionTimeout, h]

/-- The same-holder re-open instantiated at the counterexample's state. -/
theorem beginInteraction_same_holder_updates_mode_only_witness :
    (0 : ℤ) < (10000 : ℤ) - 5000 ∧
    beginInteraction 5000 (some ⟨"chan__alice", "alice", "store", 10000, 0⟩)
        "chan__alice" "alice" "inventory" =
      some ⟨"chan__alice", "alice", "inventory", 10000, 0⟩ :=
  ⟨by decide,
   (beginInteraction_same_holder_updates_mode_only 5000
      ⟨"chan__alice", "alice", "store", 10000, 0⟩ "chan__alice" "alice" "inventory"
      rfl).1 (by decide)⟩

/-- **C5** as stated is false: the `locked` payload sent when a different
player's command is rejected carries the *requester's* command-cooldown
remainder, not the holder's remaining session time — here the holder has
50000ms of session left, but the requester (not on cooldown) gets a payload
with no remaining time at all. -/
theorem lock_conflict_payload_counterexample :
    lockConflictGate (some ⟨"chan__alice", "alice", "store", 100000, 0⟩)
        "chan__bob" "store" 50000 0 false =
      GateResult.rejected
        (some ⟨lockReason ⟨"chan__alice", "alice", "store", 100000, 0⟩, none,
          some maxInteractionRefreshes⟩) none ∧
    (0 : ℤ) < 100000 - 50000 := by
  exact ⟨by decide, by decide⟩

/-- **C5 amended.** At most one player holds the interaction lock at any
time (it is a single nullable slot), and a command from a different player
while the lock is held is rejected before dispatch; `store`/`upgrades`
commands get a locked payload whose remaining time is the requester's own
per-player command-cooldown remainder when positive (omitted otherwise),
and `inventory` gets a locked payload carrying no remaining time — the
holder's remaining session time is not included. -/
theorem lock_exclusive_and_conflict_rejected :
    (∀ lock k1 k2, holdsLock lock k1 → holdsLock lock k2 → k1 = k2) ∧
    (∀ (l : InteractionLock) (requesterKey command : String) (now lastCmd : ℤ)
        (bypass : Bool), l.scopedKey ≠ requesterKey →
      (lockConflictGate (some l) requesterKey command now lastCmd bypass ≠ .proceed) ∧
      (command = "store" ∨ command = "upgrades" →
        lockConflictGate (some l) requesterKey command now lastCmd bypass =
          .rejected
            (some ⟨lockReason l,
              if bypass = false ∧ now - lastCmd < userCommandCooldownMs then
                some (userCommandCooldownMs - (now - lastCmd))
              else none,
              some maxInteractionRefreshes⟩) none) ∧
      (command = "inventory" →
        lockConflictGate (some l) requesterKey command now lastCmd bypass =
          .rejected none (some ⟨lockReason l, none, none⟩))) := by
  constructor
  · rintro lock k1 k2 ⟨l1, hl1, he1⟩ ⟨l2, hl2, he2⟩
    rw [hl1] at hl2
    cases hl2
    rw [← he1, ← he2]
  · intro l requesterKey command now lastCmd bypass hne
    refine ⟨?_, ?_, ?_⟩
    · simp [lockConflictGate, hne]
    · intro hcmd
      rcases hcmd with h | h <;> subst h <;>
        cases bypass with
        | true =>
            rw [if_neg (by simp)]
            simp [lockConflictGate, hne]
        | false =>
            by_cases hlt : now - lastCmd < userCommandCooldownMs
            · rw [if_pos ⟨rfl, hlt⟩]
              have h2 : userCommandCooldownMs - (now - lastCmd) > 0 := by omega
              simp [lockConflictGate, hne, h2]
            · rw [if_neg (by simp [hlt])]
              have h2 : ¬ userCommandCooldownMs - (now - lastCmd) > 0 := by omega
              simp [lockConflictGate, hne, h2]
    · intro hcmd
      have h1 : ¬ (command = "store" ∨ command = "upgrades") := by simp [hcmd]
      simp [lockConflictGate, hne, hcmd, h1]

/-- The conflict gate instantiated at the counterexample's inputs. -/
theorem lock_exclusive_and_conflict_rejected_witness :
    ("chan__alice" : String) ≠ "chan__bob" ∧
    lockConflictGate (some ⟨"chan__alice", "alice", "store", 100000, 0⟩)
        "chan__bob" "inventory" 50000 0 false =
      .rejected none
        (some ⟨lockReason ⟨"chan__alice", "alice", "store", 100000, 0⟩, none, none⟩) := by
  refine ⟨by decide, ?_⟩
  exact ((lock_exclusive_and_conflict_rejected.2
    ⟨"chan__alice", "alice", "store", 100000, 0⟩ "chan__bob" "inventory" 50000 0 false
    (by decide)).2.2 rfl)

/-- **C6.** A manual store refresh succeeds when the caller's personal 8h
cooldown has elapsed, replacing the rotation's item contents while
preserving a still-unexpired rotation's expiry; a second refresh by the
same player within the personal cooldown window is rejected with the
rotation unchanged (regardless of the rotation's own expiry), and the
cooldown is tracked per player, leaving other players' timestamps alone. -/
theorem store_refresh_personal_cooldown (st : StoreState) (key : String) (now : ℤ)
    (newItems : List StoreItem) (rotationMs : ℤ)
    (hcool : storeRefreshCooldownMs ≤ now - (st.lastRefresh key).getD 0) :
    (handleStoreRefresh st key now newItems rotationMs).2 = true ∧
    (∀ items exp, st.rotation = some (items, exp) → now < exp →
      (handleStoreRefresh st key now newItems rotationMs).1.rotation =
        some (newItems, exp)) ∧
    (∀ now2 items2, now2 - now < storeRefreshCooldownMs →
      handleStoreRefresh (handleStoreRefresh st key now newItems rotationMs).1
          key now2 items2 rotationMs =
        ((handleStoreRefresh st key now newItems rotationMs).1, false)) ∧
    (∀ k2, k2 ≠ key →
      (handleStoreRefresh st key now newItems rotationMs).1.lastRefresh k2 =
        st.lastRefresh k2) := by
  have hnot : ¬ now - (st.lastRefresh key).getD 0 < storeRefreshCooldownMs := by omega
  refine ⟨?_, ?_, ?_, ?_⟩
  · simp [handleStoreRefresh, hnot]
  · intro items exp hrot hexp
    simp [handleStoreRefresh, hnot, hrot, hexp]
  · intro now2 items2 hwin
    set st1 := (handleStoreRefresh st key now newItems rotationMs).1 with hst1
    have hkey : (st1.lastRefresh key).getD 0 = now := by
      rw [hst1]
      simp [handleStoreRefresh, hnot]
    have hlt : now2 - (st1.lastRefresh key).getD 0 < storeRefreshCooldownMs := by
      rw [hkey]
      omega
    simp [handleStoreRefresh, hlt]
  · intro k2 hk2
    simp [handleStoreRefresh, hnot, hk2]

/-- The refresh flow instantiated: a first refresh at t=0 on a fresh map
fails (the default last-refresh timestamp is 0), so take t=8h: it succeeds
and preserves an unexpired rotation's expiry; a retry one hour later is
rejected unchanged. -/
theorem store_refresh_personal_cooldown_witness :
    (handleStoreRefresh ⟨some ([], 30000000), fun _ => none⟩ "k" 28800000 [] 14400000).2
      = true ∧
    (handleStoreRefresh ⟨some ([], 30000000), fun _ => none⟩ "k" 28800000 [] 14400000).1.rotation
      = some ([], 30000000) ∧
    handleStoreRefresh
        (handleStoreRefresh ⟨some ([], 30000000), fun _ => none⟩ "k" 28800000 [] 14400000).1
        "k" 32400000 [] 14400000 =
      ((handleStoreRefresh ⟨some ([], 30000000), fun _ => none⟩ "k" 28800000 [] 14400000).1,
       false) := by
  have h := store_refresh_personal_cooldown ⟨some ([], 30000000), fun _ => none⟩ "k"
    28800000 [] 14400000 (by norm_num [storeRefreshCooldownMs])
  exact ⟨h.1, h.2.1 [] 30000000 rfl (by norm_num),
    h.2.2.1 32400000 [] (by norm_num [storeRefreshCooldownMs])⟩

/-- The validation loop finds no shortage exactly when every cost is
covered. -/
lemma firstShortMaterial_eq_none_iff (materials : MaterialId → ℤ)
    (costs : List (MaterialId × ℤ)) :
    firstShortMaterial materials costs = none ↔ ∀ mc ∈ costs, mc.2 ≤ materials mc.1 := by
  induction costs with
  | nil => simp [firstShortMaterial]
  | cons mc rest ih =>
      obtain ⟨m1, c1⟩ := mc
      by_cases h : materials m1 < c1
      · simp only [firstShortMaterial, if_pos h]
        constructor
        · intro hc
          cases hc
        · intro hall
          have := hall (m1, c1) (by simp)
          simp at this
          omega
      · simp only [firstShortMaterial, if_neg h, ih]
        constructor
        · intro hall mc2 hmem2
          rcases List.mem_cons.mp hmem2 with heq | hm
          · subst heq
            simp
            omega
          · exact hall mc2 hm
        · intro hall mc2 hm
          exact hall mc2 (by simp [hm])

/-- With exactly one material short, the validation loop names it. -/
lemma firstShortMaterial_single (materials : MaterialId → ℤ)
    (costs : List (MaterialId × ℤ)) (m : MaterialId) (c : ℤ)
    (hmem : (m, c) ∈ costs) (hshort : materials m < c)
    (hothers : ∀ mc ∈ costs, mc.1 ≠ m → mc.2 ≤ materials mc.1) :
    firstShortMaterial materials costs = some m := by
  induction costs with
  | nil => cases hmem
  | cons mc rest ih =>
      obtain ⟨m1, c1⟩ := mc
      by_cases h : materials m1 < c1
      · have hm1 : m1 = m := by
          by_contra hne
          have := hothers (m1, c1) (by simp) (by simpa using hne)
          simp at this
          omega
        subst hm1
        simp [firstShortMaterial, h]
      · rcases List.mem_cons.mp hmem with heq | hmem2
        · have hm1 : m1 = m ∧ c1 = c := by
            have := heq
            simp [Prod.ext_iff] at this
            exact ⟨this.1.symm, this.2.symm⟩
          obtain ⟨rfl, rfl⟩ := hm1
          omega
        · simp only [firstShortMaterial, if_neg h]
          exact ih hmem2 (fun mc2 h2 hne => hothers mc2 (by simp [h2]) hne)

/-- **C2.** Crafting validates every material cost before deducting any:
if all costs are met, the costs are deducted, granted materials credited
and a granted item stored (auto-sold when the bag is full) with no
rejection; if any single material is short (all others met), the craft is
rejected with a status naming that material and the player state — its
materials, inventory and gold included — is left completely unchanged. -/
theorem craft_validates_all_before_deducting (s : PlayerState)
    (recipe : CraftingRecipe) (hunlock : s.craftingUnlocked = true) :
    ((∀ mc ∈ recipe.costs, mc.2 ≤ s.materials mc.1) →
      (panelCraft s recipe).2 = none ∧
      (panelCraft s recipe).1.materials =
        grantMaterials (deductCosts s.materials recipe.costs) recipe.grantsMaterials ∧
      (panelCraft s recipe).1.inventory =
        (match recipe.grantsItem with
         | some item =>
             if s.inventory.length ≥ s.inventoryCap then s.inventory
             else s.inventory ++ [item]
         | none => s.inventory) ∧
      (panelCraft s recipe).1.gold =
        (match recipe.grantsItem with
         | some item =>
             if s.inventory.length ≥ s.inventoryCap then s.gold + item.value else s.gold
         | none => s.gold)) ∧
    (∀ m c, (m, c) ∈ recipe.costs → s.materials m < c →
      (∀ mc ∈ recipe.costs, mc.1 ≠ m → mc.2 ≤ s.materials mc.1) →
      (panelCraft s recipe).1 = s ∧
      (panelCraft s recipe).2 = some ("not enough " ++ materialIdStr m)) := by
  constructor
  · intro hmet
    have hnone : firstShortMaterial s.materials recipe.costs = none :=
      (firstShortMaterial_eq_none_iff _ _).mpr hmet
    cases hgi : recipe.grantsItem with
    | none => simp [panelCraft, hunlock, hnone, hgi]
    | some item =>
        by_cases hfull : s.inventory.length ≥ s.inventoryCap
        · simp [panelCraft, hunlock, hnone, hgi, hfull]
        · simp [panelCraft, hunlock, hnone, hgi, hfull]
  · intro m c hmem hshort hothers
    have hsome : firstShortMaterial s.materials recipe.costs = some m :=
      firstShortMaterial_single _ _ m c hmem hshort hothers
    simp [panelCraft, hunlock, hsome]

/-- A crafter holding exactly the cosmic-dust recipe's costs. -/
def craftWitnessExact : PlayerState :=
  { baseState with craftingUnlocked := true, materials := fun m => if m = .astralFiber then 6 else if m = .frostCrystal then 5 else if m = .abyssalInk then 4 else 0 }

/-- The same crafter one astral fiber short. -/
def craftWitnessShort : PlayerState :=
  { baseState with craftingUnlocked := true, materials := fun m => if m = .astralFiber then 5 else if m = .frostCrystal then 5 else if m = .abyssalInk then 4 else 0 }

/-- The built-in cosmic-dust synthesis recipe. -/
def dustRecipe : CraftingRecipe :=
  ⟨"synthesize-cosmic-dust", [(.astralFiber, 6), (.frostCrystal, 5), (.abyssalInk, 4)],
    none, [(.cosmicDust, 1)]⟩

/-- Crafting instantiated at the built-in cosmic-dust recipe: with exact
materials the costs zero out and one dust is granted; one astral fiber
short, everything is untouched and the shortage is named. -/
theorem craft_validates_all_before_deducting_witness :
    ((panelCraft craftWitnessExact dustRecipe).2 = none ∧
     (panelCraft craftWitnessExact dustRecipe).1.materials .astralFiber = 0 ∧
     (panelCraft craftWitnessExact dustRecipe).1.materials .cosmicDust = 1) ∧
    ((panelCraft craftWitnessShort dustRecipe).1 = craftWitnessShort ∧
     (panelCraft craftWitnessShort dustRecipe).2 = some "not enough astral-fiber") := by
  constructor
  · have h := (craft_validates_all_before_deducting craftWitnessExact dustRecipe rfl).1
      (by decide)
    refine ⟨h.1, ?_, ?_⟩
    · rw [h.2.1]; decide
    · rw [h.2.1]; decide
  · have h := (craft_validates_all_before_deducting craftWitnessShort dustRecipe rfl).2
      MaterialId.astralFiber 6 (by decide) (by decide) (by decide)
    exact ⟨h.1, h.2⟩

/-- `recomputeBuff` keeps exactly the unexpired grants, and (for positive
grant amounts) produces the aggregate (sum of amounts, latest endsAt) when
any unexpired grant remains, else removes the kind. -/
lemma recomputeBuffList_spec (now : ℤ) (entries : List TimedGrant)
    (hpos : ∀ g ∈ entries, 0 < g.amount) :
    (recomputeBuffList now entries).1 = entries.filter (fun g => now < g.endsAt) ∧
    (entries.filter (fun g => now < g.endsAt) = [] →
        (recomputeBuffList now entries).2 = none) ∧
    (entries.filter (fun g => now < g.endsAt) ≠ [] →
        (recomputeBuffList now entries).2 =
          some ⟨((entries.filter (fun g => now < g.endsAt)).map (·.amount)).sum,
                (((entries.filter (fun g => now < g.endsAt)).map (·.endsAt)).max?).getD 0⟩) := by
  refine ⟨?_, ?_, ?_⟩
  · simp only [recomputeBuffList]
    split <;> rfl
  · intro h
    simp [recomputeBuffList, h]
  · intro h
    have hall : ∀ x ∈ (entries.filter (fun g => now < g.endsAt)).map (·.amount), 0 < x := by
      intro x hx
      obtain ⟨g, hg, rfl⟩ := List.mem_map.mp hx
      exact hpos g (List.mem_of_mem_filter hg)
    have hne : (entries.filter (fun g => now < g.endsAt)).map (·.amount) ≠ [] := by
      simpa using h
    have hsum : 0 < ((entries.filter (fun g => now < g.endsAt)).map (·.amount)).sum :=
      List.sum_pos _ hall hne
    simp [recomputeBuffList, hsum]

/-- The freshly added grant is itself unexpired, so the post-add filter is
nonempty. -/
lemma filter_append_new_grant_ne_nil (now durationMs : ℤ) (amount : ℚ) (id : ℕ)
    (grants : List TimedGrant) (hdur : 0 < durationMs) :
    (grants ++ [({ amount := amount, endsAt := now + durationMs, id := id } : TimedGrant)]).filter (fun g => now < g.endsAt) ≠ [] := by
  intro hcontra
  have hmem : ({ amount := amount, endsAt := now + durationMs, id := id } : TimedGrant) ∈
      (grants ++ [({ amount := amount, endsAt := now + durationMs, id := id } : TimedGrant)]).filter (fun g => now < g.endsAt) := by
    apply List.mem_filter.mpr
    constructor
    · simp
    · simp only [decide_eq_true_eq]
      omega
  rw [hcontra] at hmem
  cases hmem

/-- **C8.** For each timed buff kind (xp, value): after a grant is added,
the effective buff equals (sum of amounts, latest endsAt) over all
unexpired grants of that kind including the new one; after a single grant
expires, only that grant is removed, the kind's aggregate is recomputed
over the remaining unexpired grants, and the kind disappears exactly when
none remain. -/
theorem timed_buff_sum_and_latest_expiry (e : EngineState) (now : ℤ) (amount : ℚ)
    (durationMs : ℤ) (id : ℕ)
    (hxp : ∀ g ∈ e.xpGrants, 0 < g.amount) (hval : ∀ g ∈ e.valueGrants, 0 < g.amount)
    (hamt : 0 < amount) (hdur : 0 < durationMs) :
    ((addTimedBuffXp e amount durationMs now id).player.xpBuff =
        some ⟨(((e.xpGrants ++ [({ amount := amount, endsAt := now + durationMs, id := id } : TimedGrant)]).filter
                  (fun g => now < g.endsAt)).map (·.amount)).sum,
              ((((e.xpGrants ++ [({ amount := amount, endsAt := now + durationMs, id := id } : TimedGrant)]).filter
                  (fun g => now < g.endsAt)).map (·.endsAt)).max?).getD 0⟩) ∧
    ((addTimedBuffValue e amount durationMs now id).player.valueBuff =
        some ⟨(((e.valueGrants ++ [({ amount := amount, endsAt := now + durationMs, id := id } : TimedGrant)]).filter
                  (fun g => now < g.endsAt)).map (·.amount)).sum,
              ((((e.valueGrants ++ [({ amount := amount, endsAt := now + durationMs, id := id } : TimedGrant)]).filter
                  (fun g => now < g.endsAt)).map (·.endsAt)).max?).getD 0⟩) ∧
    ((expireXpGrant e id now).xpGrants =
        (e.xpGrants.filter (fun g => g.id ≠ id)).filter (fun g => now < g.endsAt)) ∧
    ((e.xpGrants.filter (fun g => g.id ≠ id)).filter (fun g => now < g.endsAt) = [] →
        (expireXpGrant e id now).player.xpBuff = none) ∧
    ((e.xpGrants.filter (fun g => g.id ≠ id)).filter (fun g => now < g.endsAt) ≠ [] →
        (expireXpGrant e id now).player.xpBuff =
          some ⟨(((e.xpGrants.filter (fun g => g.id ≠ id)).filter
                    (fun g => now < g.endsAt)).map (·.amount)).sum,
                ((((e.xpGrants.filter (fun g => g.id ≠ id)).filter
                    (fun g => now < g.endsAt)).map (·.endsAt)).max?).getD 0⟩) ∧
    ((expireValueGrant e id now).valueGrants =
        (e.valueGrants.filter (fun g => g.id ≠ id)).filter (fun g => now < g.endsAt)) ∧
    ((e.valueGrants.filter (fun g => g.id ≠ id)).filter (fun g => now < g.endsAt) = [] →
        (expireValueGrant e id now).player.valueBuff = none) ∧
    ((e.valueGrants.filter (fun g => g.id ≠ id)).filter (fun g => now < g.endsAt) ≠ [] →
        (expireValueGrant e id now).player.valueBuff =
          some ⟨(((e.valueGrants.filter (fun g => g.id ≠ id)).filter
                    (fun g => now < g.endsAt)).map (·.amount)).sum,
                ((((e.valueGrants.filter (fun g => g.id ≠ id)).filter
                    (fun g => now < g.endsAt)).map (·.endsAt)).max?).getD 0⟩) := by
  have hposx : ∀ g ∈ e.xpGrants ++ [({ amount := amount, endsAt := now + durationMs, id := id } : TimedGrant)], 0 < g.amount := by
    intro g hg
    rcases List.mem_append.mp hg with h | h
    · exact hxp g h
    · simp at h
      subst h
      exact hamt
  have hposv : ∀ g ∈ e.valueGrants ++ [({ amount := amount, endsAt := now + durationMs, id := id } : TimedGrant)], 0 < g.amount := by
    intro g hg
    rcases List.mem_append.mp hg with h | h
    · exact hval g h
    · simp at h
      subst h
      exact hamt
  have hposxf : ∀ g ∈ e.xpGrants.filter (fun g => g.id ≠ id), 0 < g.amount :=
    fun g hg => hxp g (List.mem_of_mem_filter hg)
  have hposvf : ∀ g ∈ e.valueGrants.filter (fun g => g.id ≠ id), 0 < g.amount :=
    fun g hg => hval g (List.mem_of_mem_filter hg)
  have specAX := recomputeBuffList_spec now (e.xpGrants ++ [({ amount := amount, endsAt := now + durationMs, id := id } : TimedGrant)]) hposx
  have specAV := recomputeBuffList_spec now (e.valueGrants ++ [({ amount := amount, endsAt := now + durationMs, id := id } : TimedGrant)]) hposv
  have specEX := recomputeBuffList_spec now (e.xpGrants.filter (fun g => g.id ≠ id)) hposxf
  have specEV := recomputeBuffList_spec now (e.valueGrants.filter (fun g => g.id ≠ id)) hposvf
  refine ⟨?_, ?_, ?_, ?_, ?_, ?_, ?_, ?_⟩
  · show (recomputeBuffList now (e.xpGrants ++ [({ amount := amount, endsAt := now + durationMs, id := id } : TimedGrant)])).2 = _
    exact specAX.2.2 (filter_append_new_grant_ne_nil now durationMs amount id e.xpGrants hdur)
  · show (recomputeBuffList now (e.valueGrants ++ [({ amount := amount, endsAt := now + durationMs, id := id } : TimedGrant)])).2 = _
    exact specAV.2.2 (filter_append_new_grant_ne_nil now durationMs amount id e.valueGrants hdur)
  · show (recomputeBuffList now (e.xpGrants.filter (fun g => g.id ≠ id))).1 = _
    exact specEX.1
  · intro h
    show (recomputeBuffList now (e.xpGrants.filter (fun g => g.id ≠ id))).2 = none
    exact specEX.2.1 h
  · intro h
    show (recomputeBuffList now (e.xpGrants.filter (fun g => g.id ≠ id))).2 = _
    exact specEX.2.2 h
  · show (recomputeBuffList now (e.valueGrants.filter (fun g => g.id ≠ id))).1 = _
    exact specEV.1
  · intro h
    show (recomputeBuffList now (e.valueGrants.filter (fun g => g.id ≠ id))).2 = none
    exact specEV.2.1 h
  · intro h
    show (recomputeBuffList now (e.valueGrants.filter (fun g => g.id ≠ id))).2 = _
    exact specEV.2.2 h

/-- The buff registry instantiated: adding a +0.15 journal grant for 5
minutes at t=0 on top of an existing +0.2 grant expiring at t=400000 yields
an effective buff of 0.35 expiring at the later t=400000; expiring the old
grant (id 7) alone leaves the new grant's 0.15 aggregate. -/
theorem timed_buff_sum_and_latest_expiry_witness :
    (addTimedBuffXp ⟨baseState, [⟨2/10, 400000, 7⟩], []⟩ (15/100) 300000 0 8).player.xpBuff
      = some ⟨35/100, 400000⟩ ∧
    (expireXpGrant ⟨baseState, [⟨2/10, 400000, 7⟩, ⟨15/100, 300000, 8⟩], []⟩ 7 0).player.xpBuff
      = some ⟨15/100, 300000⟩ := by
  constructor
  · have h := (timed_buff_sum_and_latest_expiry ⟨baseState, [⟨2/10, 400000, 7⟩], []⟩ 0
      (15/100) 300000 8 (by intro g hg; simp at hg; subst hg; norm_num)
      (by intro g hg; simp at hg) (by norm_num) (by norm_num)).1
    rw [h]
    norm_num
  · have h := (timed_buff_sum_and_latest_expiry
      ⟨baseState, [⟨2/10, 400000, 7⟩, ⟨15/100, 300000, 8⟩], []⟩ 0 1 1 7
      (by intro g hg; simp at hg; rcases hg with h | h <;> (subst h; norm_num))
      (by intro g hg; simp at hg) (by norm_num) (by norm_num)).2.2.2.2.1
    rw [h (by decide)]
    norm_num

/-! ## C7: clamping of `double` events -/

/-- `Math.round` of a JS integer is that integer. -/
lemma jround_intCast (n : ℤ) : jround (n : ℚ) = n := by
  unfold jround
  rw [add_comm, Int.floor_add_int]
  norm_num

/-- The global-event list produced by issuing `!event start double r` once per
requested count `r` in `reqs`, all expiring at `endsAt`: `handleEventCommand`
stores `amount = max(1, min(maxDoubleStacks, round(amountArg)))` for a
`double` event (`doubleEventAmount`) and no target rarity. -/
def doubleEventsFor (reqs : List ℤ) (endsAt : ℤ) : List GlobalEvent :=
  reqs.map (fun (r : ℤ) =>
    { kind := .double, endsAt := endsAt, amount := doubleEventAmount (r : ℚ), targetRarity := none })

lemma currentEvents_doubleEventsFor (reqs : List ℤ) :
    currentEvents 0 (doubleEventsFor reqs 1) = doubleEventsFor reqs 1 := by
  unfold currentEvents
  apply List.filter_eq_self.mpr
  intro e he
  unfold doubleEventsFor at he
  obtain ⟨r, _, rfl⟩ := List.mem_map.mp he
  rfl

lemma eventEffectsStep_double (acc : EventEffects) (e : GlobalEvent)
    (hk : e.kind = .double) :
    eventEffectsStep acc e
      = { acc with doubleStacks :=
            acc.doubleStacks + max 0 (jround (if e.amount = 0 then 1 else e.amount)) } := by
  simp [eventEffectsStep, hk]

/-- The `doubleStacks` contribution of a stored `double` event with an integer
request `r` is `max 1 (min 3 r)`. -/
lemma doubleStacks_contribution (r : ℤ) :
    max 0 (jround (if doubleEventAmount (r : ℚ) = 0 then 1 else doubleEventAmount (r : ℚ)))
      = max 1 (min 3 r) := by
  have h1 : doubleEventAmount (r : ℚ) = ((max 1 (min 3 r) : ℤ) : ℚ) := by
    unfold doubleEventAmount maxDoubleStacks
    rw [jround_intCast]
  rw [h1]
  have hne : ((max 1 (min 3 r) : ℤ) : ℚ) ≠ 0 := by
    rw [Int.cast_ne_zero]
    omega
  rw [if_neg hne, jround_intCast]
  omega

lemma doubleEventsFor_doubleStacks (reqs : List ℤ) (acc : EventEffects) :
    ((doubleEventsFor reqs 1).foldl eventEffectsStep acc).doubleStacks
      = acc.doubleStacks + (reqs.map (fun r => max 1 (min 3 r))).sum := by
  induction reqs generalizing acc with
  | nil => simp [doubleEventsFor]
  | cons a l ih =>
    simp only [doubleEventsFor, List.map_cons, List.foldl_cons, List.sum_cons] at ih ⊢
    rw [ih]
    rw [eventEffectsStep_double _ _ rfl]
    simp only []
    rw [doubleStacks_contribution]
    ring

/-- Summing per-event clamps `max 1 (min 3 rᵢ)` and then clamping to 3 agrees
with clamping the raw sum to 3, whenever every request is at least 1. -/
lemma min3_sum_clamped (reqs : List ℤ) (h : ∀ r ∈ reqs, 1 ≤ r) :
    0 ≤ (reqs.map (fun r => max 1 (min 3 r))).sum ∧
    min 3 (reqs.map (fun r => max 1 (min 3 r))).sum = min 3 reqs.sum := by
  induction reqs with
  | nil => simp
  | cons a l ih =>
    have ha := h a (List.mem_cons_self a l)
    have hl := ih (fun r hr => h r (List.mem_cons_of_mem a hr))
    obtain ⟨h0, hmin⟩ := hl
    simp only [List.map_cons, List.sum_cons]
    omega

/-- C7: the number of bonus catches granted by active `double` global events
on a successful reel (`bonusCatchCount`, the clamp
`min(maxDoubleStacks, max(0, doubleStacks))` used by `handleReel`) over the
events stored by `handleEventCommand` for integer requests `reqs` (each at
least 1) equals the sum of the requested extra-catch counts clamped to the
maximum stack of 3; in particular a single event requesting 10 extra catches
contributes exactly 3 bonus catches. -/
theorem double_event_requests_clamped (reqs : List ℤ) (h : ∀ r ∈ reqs, 1 ≤ r) :
    bonusCatchCount 0 (doubleEventsFor reqs 1) = min maxDoubleStacks reqs.sum := by
  obtain ⟨h0, hmin⟩ := min3_sum_clamped reqs h
  unfold bonusCatchCount getEventEffects
  rw [currentEvents_doubleEventsFor, doubleEventsFor_doubleStacks]
  simp only [maxDoubleStacks]
  omega

/-- Witness for C7: a single `double` event requesting 10 extra catches yields
exactly 3 bonus catches. -/
theorem double_event_requests_clamped_witness :
    bonusCatchCount 0 (doubleEventsFor [(10 : ℤ)] 1) = 3 := by
  rw [double_event_requests_clamped [(10 : ℤ)] (by decide)]
  decide

/-! ## C4: the fresh-player reward scenario -/

set_option maxHeartbeats 1000000 in
/-- C4: a fresh default player (`baseState`: gold 25, level 1, pole 1, lure 0,
luck 0, no buffs, baits or charms) who is casting with an active tug and reels
with no active events in the tier-1 cove biome (multipliers 1.0), where the
rolled rarity awards tier xp 6 and the rolled item value is `v` in the lowest
tier's range [5, 12], ends with gold `25 + (6 + v)` and xp 6 (still level 1),
and the overlay reports a successful catch: `valueMultiplier = 1`, so
`goldEarned = round(6 + v) = 6 + v`; `xpBoost = 1.05` from pole level 1, so
`xpGained = round(6 × 1.05) = round(6.3) = 6`, below the 100 xp needed to
level. -/
theorem fresh_player_reward (v : ℤ) ( _h5 : 5 ≤ v) ( _h12 : v ≤ 12) (rng : ReelRand)
    (hx : rng.rarity.xp = 6) (hv : rng.mainItem.value = v) :
    (handleReel 0 [] coveBiome rng
        { baseState with isCasting := true, hasTug := true }).1.gold = 25 + (6 + v)
    ∧ (handleReel 0 [] coveBiome rng
        { baseState with isCasting := true, hasTug := true }).1.xp = 6
    ∧ (handleReel 0 [] coveBiome rng
        { baseState with isCasting := true, hasTug := true }).1.level = 1
    ∧ (handleReel 0 [] coveBiome rng
        { baseState with isCasting := true, hasTug := true }).2 = [OverlayEv.catchEvt true] := by
  have h63 : jround ((63 : ℚ)/10) = 6 := by norm_num [jround]
  have hbg : jround ((baseGoldPerCatch : ℚ) + (v : ℚ)) = 6 + v := by
    unfold baseGoldPerCatch
    rw [show ((6 : ℤ) : ℚ) + (v : ℚ) = (((6 + v : ℤ)) : ℚ) by push_cast; ring]
    rw [jround_intCast]
  simp only [handleReel, resolveReel, getEventEffects, currentEvents, bonusCatchCount,
    maxDoubleStacks, applyCatchRewards, applyBonusCatches, applyScrollDrop, applyEchoReel,
    maybeAwardCosmicDust, decBait, coveBiome, baseState, hx, hv, levelLoop]
  norm_num [h63, hbg]

/-- A concrete draw for the witness: the cove common rarity and a value-5
common item everywhere. -/
def freshReelRng : ReelRand where
  rarity := ⟨0, 52, 5, 12, 6⟩
  mainItem := { name := "Driftwood Minnow", rarityIdx := 0, value := 5 }
  bonusItem := fun _ => { name := "Driftwood Minnow", rarityIdx := 0, value := 5 }
  echoItem := { name := "Driftwood Minnow", rarityIdx := 0, value := 5 }
  dustHit := false
  dustExtra := false
  scrollDrop := none

/-- Witness for C4: with a rolled value of 5 the fresh player ends with
gold 36 = 25 + 6 + 5 and xp 6. -/
theorem fresh_player_reward_witness :
    (handleReel 0 [] coveBiome freshReelRng
        { baseState with isCasting := true, hasTug := true }).1.gold = 25 + (6 + 5)
    ∧ (handleReel 0 [] coveBiome freshReelRng
        { baseState with isCasting := true, hasTug := true }).1.xp = 6 := by
  obtain ⟨hg, hxp, -, -⟩ :=
    fresh_player_reward 5 (by decide) (by decide) freshReelRng rfl rfl
  exact ⟨hg, hxp⟩

end FishLooter
